import Mathlib

/-!
Shallow embedding of the quiz-game engine (Next.js API route handlers over a
relational store).  Tables are lists of records, request bodies are `Option`
fields (`none` models a missing JSON field), timestamps are natural-number
milliseconds, and the external text-generation collaborator is an oracle
parameter.  Each handler is a pure function `DB → inputs → DB × response`.
-/

set_option maxHeartbeats 1000000

namespace QuizGame

/-- Phase column of `game_sessions` (schema CHECK constraint lists exactly
these seven values). -/
inductive Phase
  | lobby
  | asking
  | showing_answers
  | quiz
  | quiz_question
  | quiz_results
  | game_over
deriving DecidableEq

/-- Status column of `game_sessions`. -/
inductive GStatus
  | waiting
  | playing
  | finished
deriving DecidableEq

/-- Row of the `game_sessions` table. -/
structure GameSession where
  id : Nat
  code : String
  status : GStatus
  phase : Phase
  current_question_id : Option Nat
  current_question_number : Option Nat
  current_quiz_question_id : Option Nat
  current_quiz_question_number : Option Nat
  quiz_started_at : Option Nat
  question_deadline : Option Nat
deriving DecidableEq

/-- Row of the `players` table. -/
structure Player where
  id : Nat
  game_id : Nat
  name : String
  is_projector : Bool
  score : Int
  avatar_color : String
deriving DecidableEq

/-- Row of the `questions` (icebreaker questions) table. -/
structure Question where
  id : Nat
  game_id : Nat
  question_number : Nat
  question_text : String
deriving DecidableEq

/-- Row of the `answers` (icebreaker answers) table; the schema has
UNIQUE(question_id, player_id). -/
structure Answer where
  id : Nat
  question_id : Nat
  player_id : Nat
  answer_text : String
deriving DecidableEq

/-- Row of the `quiz_questions` table. -/
structure QuizQuestion where
  id : Nat
  game_id : Nat
  about_player_id : Nat
  question_text : String
  correct_answer : String
  option_a : String
  option_b : String
  option_c : String
  option_d : String
  question_order : Nat
deriving DecidableEq

/-- Row of the `quiz_answers` table; the schema has
UNIQUE(quiz_question_id, player_id). -/
structure QuizAnswer where
  id : Nat
  quiz_question_id : Nat
  player_id : Nat
  selected_option : String
  is_correct : Bool
deriving DecidableEq

/-- Whole database state; `nextId` models the id generator for inserts. -/
structure DB where
  game_sessions : List GameSession
  players : List Player
  questions : List Question
  answers : List Answer
  quiz_questions : List QuizQuestion
  quiz_answers : List QuizAnswer
  nextId : Nat
deriving DecidableEq

/-- Supabase `.single()`: succeeds only when the query matched exactly one
row. -/
def single? {α : Type} : List α → Option α
  | [x] => some x
  | _ => none

/-- Stable insertion into a list sorted by `key`. -/
def insertByKey {α : Type} (key : α → Nat) (x : α) : List α → List α
  | [] => [x]
  | y :: ys => if key x ≤ key y then x :: y :: ys else y :: insertByKey key x ys

/-- Stable sort by a natural-number key, modelling `.order(col, ascending)`. -/
def sortByKey {α : Type} (key : α → Nat) : List α → List α
  | [] => []
  | x :: xs => insertByKey key x (sortByKey key xs)

/-- JavaScript truthiness test for an optional string request field
(`undefined` and the empty string are falsy). -/
def strPresent : Option String → Bool
  | none => false
  | some s => !(s == "")

/-- JavaScript `x || dflt` for an optional string (empty string is falsy). -/
def jsOrStr (v : Option String) (dflt : String) : String :=
  match v with
  | some s => if s == "" then dflt else s
  | none => dflt

/-- JavaScript `String.prototype.toUpperCase` (character-wise upper-casing;
defined explicitly so that it evaluates inside the kernel). -/
def jsToUpper (s : String) : String :=
  String.mk (s.data.map Char.toUpper)

/-- Lookup `game_sessions` by join code (`.eq('code', code.toUpperCase()).single()`). -/
def findGame (db : DB) (code : String) : Option GameSession :=
  single? (db.game_sessions.filter (fun g => g.code == jsToUpper code))

/-- Lookup a player scoped to a game
(`.eq('id', playerId).eq('game_id', game.id).single()`). -/
def playerInGame (db : DB) (playerId : Option Nat) (gid : Nat) : Option Player :=
  match playerId with
  | none => none
  | some pid => single? (db.players.filter (fun p => p.id == pid && p.game_id == gid))

/-- Lookup a player globally by id (`.eq('id', playerId).single()`), with no
game scoping. -/
def playerById (db : DB) (playerId : Option Nat) : Option Player :=
  match playerId with
  | none => none
  | some pid => single? (db.players.filter (fun p => p.id == pid))

/-- Lookup an icebreaker question globally by id. -/
def questionById (db : DB) (questionId : Option Nat) : Option Question :=
  match questionId with
  | none => none
  | some qid => single? (db.questions.filter (fun q => q.id == qid))

/-- Lookup a quiz question globally by id. -/
def quizQuestionById (db : DB) (quizQuestionId : Option Nat) : Option QuizQuestion :=
  match quizQuestionId with
  | none => none
  | some qid => single? (db.quiz_questions.filter (fun q => q.id == qid))

/-- Icebreaker questions of a game ordered by `question_number`. -/
def questionsForGame (db : DB) (gid : Nat) : List Question :=
  sortByKey (fun q => q.question_number) (db.questions.filter (fun q => q.game_id == gid))

/-- Quiz questions of a game ordered by `question_order`. -/
def quizQuestionsForGame (db : DB) (gid : Nat) : List QuizQuestion :=
  sortByKey (fun q => q.question_order) (db.quiz_questions.filter (fun q => q.game_id == gid))

/-- Update the session row with the given id (`.update(...).eq('id', gid)`). -/
def updateGame (db : DB) (gid : Nat) (f : GameSession → GameSession) : DB :=
  { db with game_sessions := db.game_sessions.map (fun g => if g.id == gid then f g else g) }

/-- Re-read of the updated session row (`.update(...).select().single()`). -/
def updatedGame? (db : DB) (gid : Nat) : Option GameSession :=
  single? (db.game_sessions.filter (fun g => g.id == gid))

/-- Avatar palette from src/app/api/game/join/route.ts. -/
def AVATAR_COLORS : List String := ["#f43f5e", "#8b5cf6", "#06b6d4", "#22c55e", "#f59e0b"]

/-- Response of the create-game handler. -/
inductive CreateGameRes
  | err (status : Nat) (msg : String)
  | ok (game : GameSession) (player : Player)
deriving DecidableEq

/-- Create-game handler (second document of src/unnamed/part_003): inserts a
session with the caller-chosen code and a projector player.  The random code
generation loop is modelled by taking the generated code as a parameter; a
code that still collides makes the insert violate the UNIQUE constraint. -/
def createGame (db : DB) (playerName : Option String) (code : String) : DB × CreateGameRes :=
  match playerName with
  | none => (db, .err 400 "Player name required")
  | some name =>
    if name.trim.length < 1 then (db, .err 400 "Player name required")
    else if (db.game_sessions.filter (fun g => g.code == code)).length > 0 then
      (db, .err 500 "Failed to create game")
    else
      let game : GameSession :=
        { id := db.nextId, code := code, status := .waiting, phase := .lobby,
          current_question_id := none, current_question_number := some 0,
          current_quiz_question_id := none, current_quiz_question_number := some 0,
          quiz_started_at := none, question_deadline := none }
      let player : Player :=
        { id := db.nextId + 1, game_id := game.id, name := name.trim,
          is_projector := true, score := 0, avatar_color := (AVATAR_COLORS.get? 0).getD "" }
      ({ db with game_sessions := db.game_sessions ++ [game],
                 players := db.players ++ [player],
                 nextId := db.nextId + 2 }, .ok game player)

/-- Response of the join-game handler. -/
inductive JoinGameRes
  | err (status : Nat) (msg : String)
  | ok (game : GameSession) (player : Player)
deriving DecidableEq

/-- Join-game handler (src/app/api/game/join/route.ts, first document). -/
def joinGame (db : DB) (gameCode : Option String) (playerName : Option String) : DB × JoinGameRes :=
  if !(strPresent gameCode) || !(strPresent playerName) || (playerName.getD "").trim.length < 1 then
    (db, .err 400 "Game code and player name required")
  else
    match findGame db (gameCode.getD "") with
    | none => (db, .err 404 "Game not found")
    | some game =>
      if game.status != .waiting then (db, .err 400 "Game already started")
      else
        let playerCount :=
          ((db.players.filter (fun p => p.game_id == game.id)).filter
            (fun p => !p.is_projector)).length
        if playerCount ≥ 4 then (db, .err 400 "Game is full (4 players max)")
        else
          let colorIndex := (playerCount + 1) % AVATAR_COLORS.length
          let player : Player :=
            { id := db.nextId, game_id := game.id, name := (playerName.getD "").trim,
              is_projector := false, score := 0,
              avatar_color := (AVATAR_COLORS.get? colorIndex).getD "" }
          ({ db with players := db.players ++ [player], nextId := db.nextId + 1 },
            .ok game player)

/-- Response of the start-game handler. -/
inductive StartGameRes
  | err (status : Nat) (msg : String)
  | ok (game : GameSession)
deriving DecidableEq

/-- Start-game handler (second document of src/unnamed/part_004). -/
def startGame (db : DB) (gameCode : Option String) (playerId : Option Nat) : DB × StartGameRes :=
  if !(strPresent gameCode) then (db, .err 400 "Game code required")
  else
    match findGame db (gameCode.getD "") with
    | none => (db, .err 404 "Game not found")
    | some game =>
      match playerInGame db playerId game.id with
      | none => (db, .err 404 "Player not found in game")
      | some player =>
        if !player.is_projector then (db, .err 403 "Only the host can start the game")
        else if game.status != .waiting then
          (db, .err 400 "Game already started or finished")
        else
          let db2 := updateGame db game.id (fun g => { g with status := .playing })
          match updatedGame? db2 game.id with
          | some g2 => (db2, .ok g2)
          | none => (db2, .err 500 "Failed to start game")

/-- Fallback icebreaker questions from src/lib/openai.ts. -/
def FALLBACK_ICEBREAKERS : List String :=
  ["If you could master any hobby instantly, what would it be?",
   "What movie or show have you rewatched the most times?",
   "What\x27s a hobby you\x27ve always wanted to try but haven\x27t yet?"]

/-- Function `generateIcebreakerQuestions` of src/lib/openai.ts.  The LLM call
is the oracle argument: `none` models an API error thrown before the
try/catch around parsing (it propagates to the route handler), `some none`
models content that fails to parse as a JSON array, and `some (some qs)`
models content parsed as the array `qs` (used only when it has exactly 3
entries, otherwise the fallback set is substituted). -/
def generateIcebreakerQuestions (llm : Option (Option (List String))) : Option (List String) :=
  match llm with
  | none => none
  | some parsed =>
    match parsed with
    | some qs => if qs.length == 3 then some qs else some FALLBACK_ICEBREAKERS
    | none => some FALLBACK_ICEBREAKERS

/-- Response of the icebreaker generate-questions handler. -/
inductive GenerateQuestionsRes
  | err (status : Nat) (msg : String)
  | ok (questions : List Question)
deriving DecidableEq

/-- Icebreaker generate-questions handler (first document of
src/unnamed/part_003). -/
def generateQuestionsRoute (db : DB) (gameCode : Option String) (playerId : Option Nat)
    (llm : Option (Option (List String))) : DB × GenerateQuestionsRes :=
  if !(strPresent gameCode) then (db, .err 400 "Game code required")
  else
    match findGame db (gameCode.getD "") with
    | none => (db, .err 404 "Game not found")
    | some game =>
      match playerInGame db playerId game.id with
      | none => (db, .err 404 "Player not found in game")
      | some player =>
        if !player.is_projector then (db, .err 403 "Only the host can generate questions")
        else
          let existing := questionsForGame db game.id
          if existing.length > 0 then (db, .ok existing)
          else
            match generateIcebreakerQuestions llm with
            | none => (db, .err 500 "Internal server error")
            | some texts =>
              let newQuestions := texts.enum.map (fun p =>
                { id := db.nextId + p.1, game_id := game.id,
                  question_number := p.1 + 1, question_text := p.2 : Question })
              let db2 := { db with questions := db.questions ++ newQuestions,
                                   nextId := db.nextId + newQuestions.length }
              let db3 := updateGame db2 game.id (fun g =>
                { g with
                  phase := .asking,
                  current_question_number := some 1,
                  current_question_id :=
                    (newQuestions.find? (fun q => q.question_number == 1)).map
                      (fun q => q.id) })
              (db3, .ok newQuestions)

/-- Response of the icebreaker answer-submission handler. -/
inductive SubmitAnswerRes
  | err (status : Nat) (msg : String)
  | ok (answer : Answer)
deriving DecidableEq

/-- Icebreaker answer-submission handler (third document of
src/app/api/game/join/route.ts): upserts on (question_id, player_id).  The
player lookup is global — it is not scoped to the question's game. -/
def submitAnswer (db : DB) (questionId playerId : Option Nat) (answer : Option String) :
    DB × SubmitAnswerRes :=
  if questionId.isNone || playerId.isNone || !(strPresent answer) then
    (db, .err 400 "Question ID, player ID, and answer required")
  else
    match playerById db playerId with
    | none => (db, .err 404 "Player not found")
    | some _player =>
      match questionById db questionId with
      | none => (db, .err 404 "Question not found")
      | some _question =>
        let qid := questionId.getD 0
        let pid := playerId.getD 0
        let text := (answer.getD "").trim
        match db.answers.filter (fun a => a.question_id == qid && a.player_id == pid) with
        | [] =>
          let row : Answer :=
            { id := db.nextId, question_id := qid, player_id := pid, answer_text := text }
          ({ db with answers := db.answers ++ [row], nextId := db.nextId + 1 }, .ok row)
        | [old] =>
          let row := { old with answer_text := text }
          ({ db with answers := db.answers.map (fun a =>
              if a.question_id == qid && a.player_id == pid then row else a) }, .ok row)
        | _ => (db, .err 500 "Failed to save answer")

/-- Response of the icebreaker advance handler. -/
inductive IcebreakerNextRes
  | err (status : Nat) (msg : String)
  | showingAnswers (game : GameSession)
  | quizStart (game : GameSession)
  | next (game : GameSession) (questionNumber totalQuestions : Nat)
deriving DecidableEq

/-- Icebreaker advance handler (second document of
src/app/api/game/join/route.ts): actions `show_answers` and `next_question`.
Note that it never reads the session's current phase. -/
def icebreakerNext (db : DB) (gameCode : Option String) (playerId : Option Nat)
    (action : Option String) : DB × IcebreakerNextRes :=
  if !(strPresent gameCode) || playerId.isNone then
    (db, .err 400 "Game code and player ID required")
  else
    match findGame db (gameCode.getD "") with
    | none => (db, .err 404 "Game not found")
    | some game =>
      match playerInGame db playerId game.id with
      | none => (db, .err 404 "Player not found in game")
      | some player =>
        if !player.is_projector then (db, .err 403 "Only the host can advance the game")
        else
          let questions := questionsForGame db game.id
          if questions.length == 0 then (db, .err 404 "No questions found")
          else
            let totalQuestions := questions.length
            let currentQuestionNumber := game.current_question_number.getD 0
            if action == some "show_answers" then
              let db2 := updateGame db game.id (fun g => { g with phase := .showing_answers })
              match updatedGame? db2 game.id with
              | some g2 => (db2, .showingAnswers g2)
              | none => (db2, .err 500 "Failed to update game")
            else if action == some "next_question" then
              let nextQuestionNumber := currentQuestionNumber + 1
              if nextQuestionNumber > totalQuestions then
                let db2 := updateGame db game.id (fun g =>
                  { g with
                    phase := .quiz,
                    current_question_number := some totalQuestions })
                match updatedGame? db2 game.id with
                | some g2 => (db2, .quizStart g2)
                | none => (db2, .err 500 "Failed to update game")
              else
                let nextQuestion := questions.find? (fun q =>
                  q.question_number == nextQuestionNumber)
                let db2 := updateGame db game.id (fun g =>
                  { g with
                    phase := .asking,
                    current_question_number := some nextQuestionNumber,
                    current_question_id := nextQuestion.map (fun q => q.id) })
                match updatedGame? db2 game.id with
                | some g2 => (db2, .next g2 nextQuestionNumber totalQuestions)
                | none => (db2, .err 500 "Failed to update game")
            else (db, .err 400 "Invalid action")

/-- Icebreaker (question, answer) pair of one player, input to quiz
generation (type `PlayerIcebreakerData` entry of src/lib/openai.ts). -/
structure QA where
  question : String
  answer : String
deriving DecidableEq

/-- Per-player icebreaker data (type `PlayerIcebreakerData` of
src/lib/openai.ts). -/
structure PlayerIcebreakerData where
  playerId : Nat
  playerName : String
  answers : List QA
deriving DecidableEq

/-- Parsed LLM quiz-question object before the about-player fields are
attached (the JSON objects of src/lib/openai.ts). -/
structure RawQuizQuestion where
  questionText : String
  correctAnswer : String
  optionA : String
  optionB : String
  optionC : String
  optionD : String
deriving DecidableEq

/-- Generated quiz question (type `QuizQuestion` of src/lib/openai.ts). -/
structure GenQuizQuestion where
  aboutPlayerId : Nat
  aboutPlayerName : String
  questionText : String
  correctAnswer : String
  optionA : String
  optionB : String
  optionC : String
  optionD : String
deriving DecidableEq

/-- Constant `QUESTIONS_PER_PLAYER` of src/lib/openai.ts. -/
def QUESTIONS_PER_PLAYER : Nat := 2

/-- Fallback questions built in the catch branch of
`generateQuestionsForPlayer` (src/lib/openai.ts): one templated question per
icebreaker answer, up to `QUESTIONS_PER_PLAYER`. -/
def fallbackQuestionsForPlayer (player : PlayerIcebreakerData)
    (allPlayers : List PlayerIcebreakerData) : List GenQuizQuestion :=
  let otherPlayersAnswers :=
    ((allPlayers.filter (fun p => p.playerId != player.playerId)).map
      (fun p => p.answers.map (fun a => a.answer))).flatten
  (player.answers.take QUESTIONS_PER_PLAYER).map (fun a =>
    { aboutPlayerId := player.playerId
      aboutPlayerName := player.playerName
      questionText :=
        player.playerName ++ " mentioned \"" ++ a.answer ++ "\". What do you know about it?"
      correctAnswer := "A"
      optionA := "It\x27s something they enjoy"
      optionB := jsOrStr (otherPlayersAnswers.get? 0) "Something else"
      optionC := jsOrStr (otherPlayersAnswers.get? 1) "None of these"
      optionD := jsOrStr (otherPlayersAnswers.get? 2) "I don\x27t know" })

/-- Function `generateQuestionsForPlayer` of src/lib/openai.ts.  The oracle
argument `llm` models the chat-completion call together with JSON
extraction: `none` models an API error or unparseable content (the whole
body is inside one try/catch, so both take the fallback branch), and
`some qs` models content parsed as the array `qs`; an empty array throws
and also falls back. -/
def generateQuestionsForPlayer (llm : PlayerIcebreakerData → Option (List RawQuizQuestion))
    (player : PlayerIcebreakerData) (allPlayers : List PlayerIcebreakerData) :
    List GenQuizQuestion :=
  match llm player with
  | some qs =>
    if qs.length > 0 then
      (qs.take QUESTIONS_PER_PLAYER).map (fun q =>
        { aboutPlayerId := player.playerId
          aboutPlayerName := player.playerName
          questionText := q.questionText
          correctAnswer := q.correctAnswer
          optionA := q.optionA
          optionB := q.optionB
          optionC := q.optionC
          optionD := q.optionD })
    else fallbackQuestionsForPlayer player allPlayers
  | none => fallbackQuestionsForPlayer player allPlayers

/-- JavaScript `allQuestions.find((q, idx) => q.aboutPlayerId === pid &&
allQuestions.filter((pq, pidx) => pq.aboutPlayerId === pid && pidx < idx)
.length === round)` from the interleaving loop of `generateQuizQuestions`
(src/lib/openai.ts). -/
def interleavePick (all : List GenQuizQuestion) (pid : Nat) (round : Nat) :
    Option GenQuizQuestion :=
  (all.enum.find? (fun iq =>
    iq.2.aboutPlayerId == pid &&
      ((all.take iq.1).filter (fun pq => pq.aboutPlayerId == pid)).length == round)).map
    (fun iq => iq.2)

/-- Function `generateQuizQuestions` of src/lib/openai.ts: per-player
generation followed by the round-based interleaving loop. -/
def generateQuizQuestions (llm : PlayerIcebreakerData → Option (List RawQuizQuestion))
    (playersData : List PlayerIcebreakerData) : List GenQuizQuestion :=
  let allQuestions :=
    (playersData.map (fun pd => generateQuestionsForPlayer llm pd playersData)).flatten
  ((List.range QUESTIONS_PER_PLAYER).map (fun round =>
    playersData.filterMap (fun pd => interleavePick allQuestions pd.playerId round))).flatten

/-- Response of the quiz generate handler. -/
inductive QuizGenerateRes
  | err (status : Nat) (msg : String)
  | ok (quizQuestions : List QuizQuestion)
deriving DecidableEq

/-- Quiz generate handler (src/app/api/game/quiz/generate/route.ts). -/
def quizGenerate (db : DB) (gameCode : Option String) (playerId : Option Nat)
    (llm : PlayerIcebreakerData → Option (List RawQuizQuestion)) (now : Nat) :
    DB × QuizGenerateRes :=
  if !(strPresent gameCode) then (db, .err 400 "Game code required")
  else
    match findGame db (gameCode.getD "") with
    | none => (db, .err 404 "Game not found")
    | some game =>
      match playerInGame db playerId game.id with
      | none => (db, .err 404 "Player not found in game")
      | some player =>
        if !player.is_projector then
          (db, .err 403 "Only the host can generate quiz questions")
        else
          let existing := quizQuestionsForGame db game.id
          if existing.length > 0 then (db, .ok existing)
          else
            let players := db.players.filter (fun p =>
              p.game_id == game.id && !p.is_projector)
            if players.length == 0 then (db, .err 404 "No players found")
            else
              let icebreakerQuestions := questionsForGame db game.id
              if icebreakerQuestions.length == 0 then
                (db, .err 404 "No icebreaker questions found")
              else
                let questionIds := icebreakerQuestions.map (fun q => q.id)
                let allAnswers := db.answers.filter (fun a =>
                  questionIds.contains a.question_id)
                if allAnswers.length == 0 then
                  (db, .err 404 "No icebreaker answers found")
                else
                  let playersData := players.map (fun p =>
                    { playerId := p.id
                      playerName := p.name
                      answers := (allAnswers.filter (fun a => a.player_id == p.id)).map
                        (fun a =>
                          { question :=
                              jsOrStr ((icebreakerQuestions.find? (fun q =>
                                q.id == a.question_id)).map (fun q => q.question_text)) ""
                            answer := a.answer_text }) : PlayerIcebreakerData })
                  let playersWithAnswers := playersData.filter (fun p =>
                    p.answers.length > 0)
                  if playersWithAnswers.length == 0 then
                    (db, .err 400 "No player answers to base quiz on")
                  else
                    let quizQuestions := generateQuizQuestions llm playersWithAnswers
                    let questionsToInsert := quizQuestions.enum.map (fun iq =>
                      { id := db.nextId + iq.1
                        game_id := game.id
                        about_player_id := iq.2.aboutPlayerId
                        question_text := iq.2.questionText
                        correct_answer := iq.2.correctAnswer
                        option_a := iq.2.optionA
                        option_b := iq.2.optionB
                        option_c := iq.2.optionC
                        option_d := iq.2.optionD
                        question_order := iq.1 + 1 : QuizQuestion })
                    let db2 := { db with
                      quiz_questions := db.quiz_questions ++ questionsToInsert,
                      nextId := db.nextId + questionsToInsert.length }
                    let firstQuestion := questionsToInsert.find? (fun q =>
                      q.question_order == 1)
                    let db3 := updateGame db2 game.id (fun g =>
                      { g with
                        phase := .quiz_question,
                        current_quiz_question_id := firstQuestion.map (fun q => q.id),
                        current_quiz_question_number := some 1,
                        quiz_started_at := some now,
                        question_deadline := some (now + 20000) })
                    (db3, .ok questionsToInsert)

/-- Valid option labels checked by the quiz answer handler. -/
def VALID_OPTIONS : List String := ["A", "B", "C", "D"]

/-- Response of the quiz answer-submission handler. -/
inductive QuizAnswerRes
  | err (status : Nat) (msg : String)
  | alreadyAnswered (status : Nat) (msg : String) (existing : QuizAnswer)
  | ok (answer : QuizAnswer) (isCorrect : Bool) (correctAnswer : String)
deriving DecidableEq

/-- Quiz answer-submission handler (src/app/api/game/quiz/answer/route.ts).
The player lookup is global (not scoped to the question's game), the
session table is never read, and a duplicate (question, player) submission
is rejected with status 400 carrying the existing row. -/
def quizSubmitAnswer (db : DB) (quizQuestionId playerId : Option Nat)
    (selectedOption : Option String) : DB × QuizAnswerRes :=
  if quizQuestionId.isNone || playerId.isNone || !(strPresent selectedOption) then
    (db, .err 400 "Quiz question ID, player ID, and selected option required")
  else
    let sel := selectedOption.getD ""
    if !(VALID_OPTIONS.contains sel) then
      (db, .err 400 "Invalid option. Must be A, B, C, or D")
    else
      match playerById db playerId with
      | none => (db, .err 404 "Player not found")
      | some _player =>
        match quizQuestionById db quizQuestionId with
        | none => (db, .err 404 "Quiz question not found")
        | some quizQuestion =>
          let isCorrect := sel == quizQuestion.correct_answer
          let qid := quizQuestionId.getD 0
          let pid := playerId.getD 0
          match db.quiz_answers.filter (fun a =>
              a.quiz_question_id == qid && a.player_id == pid) with
          | [] =>
            let row : QuizAnswer :=
              { id := db.nextId, quiz_question_id := qid, player_id := pid,
                selected_option := sel, is_correct := isCorrect }
            ({ db with quiz_answers := db.quiz_answers ++ [row], nextId := db.nextId + 1 },
              .ok row isCorrect quizQuestion.correct_answer)
          | [existingAnswer] =>
            (db, .alreadyAnswered 400 "Already answered this question" existingAnswer)
          | _ => (db, .err 500 "Failed to save answer")

/-- Score delta with reason, as pushed into `scoreChanges` by the quiz
show-results branch (first document of src/unnamed/part_004). -/
structure ScoreChange where
  playerId : Nat
  change : Int
  reason : String
deriving DecidableEq

/-- Score-change computation of the show-results branch (first document of
src/unnamed/part_004, lines 77-137). -/
def computeScoreChanges (answers : List QuizAnswer) (allPlayers : List Player)
    (aboutPlayerId : Nat) : List ScoreChange :=
  let answeredPlayerIds := answers.map (fun a => a.player_id)
  let allTimedOut := allPlayers.all (fun p => !(answeredPlayerIds.contains p.id))
  if allTimedOut then
    [{ playerId := aboutPlayerId, change := -1, reason := "Everyone ran out of time" }]
  else
    allPlayers.filterMap (fun p =>
      let playerAnswer := answers.find? (fun a => a.player_id == p.id)
      if p.id == aboutPlayerId then
        match playerAnswer with
        | some a =>
          if a.is_correct then
            some { playerId := p.id, change := 2, reason := "Correctly answered about yourself" }
          else
            some { playerId := p.id, change := -1,
                   reason := "Incorrectly answered about yourself" }
        | none =>
          some { playerId := p.id, change := -1,
                 reason := "Ran out of time on your own question" }
      else
        match playerAnswer with
        | some a =>
          if a.is_correct then
            some { playerId := p.id, change := 1, reason := "Correct guess" }
          else none
        | none => none)

/-- Score application loop of the show-results branch (first document of
src/unnamed/part_004, lines 139-148): for each change, the target player is
looked up in the pre-read roster snapshot and every row with that id is set
to `Math.max(0, targetPlayer.score + change.change)`. -/
def applyScoreChanges (allPlayers : List Player) (scoreChanges : List ScoreChange)
    (players : List Player) : List Player :=
  scoreChanges.foldl (fun ps change =>
    match allPlayers.find? (fun p => p.id == change.playerId) with
    | some targetPlayer =>
      ps.map (fun p =>
        if p.id == change.playerId then
          { p with score := max 0 (targetPlayer.score + change.change) }
        else p)
    | none => ps) players

/-- Response of the quiz advance handler. -/
inductive QuizNextRes
  | err (status : Nat) (msg : String)
  | showResults (game : GameSession) (scoreChanges : List ScoreChange) (correctAnswer : String)
  | gameOver (game : GameSession)
  | next (game : GameSession) (questionNumber totalQuestions deadline : Nat)
deriving DecidableEq

/-- Quiz advance handler (first document of src/unnamed/part_004): actions
`show_results` and `next_question`.  `now` models `Date.now()`.  Note that
it never reads the session's current phase. -/
def quizNext (db : DB) (gameCode : Option String) (playerId : Option Nat)
    (action : Option String) (now : Nat) : DB × QuizNextRes :=
  if !(strPresent gameCode) || playerId.isNone then
    (db, .err 400 "Game code and player ID required")
  else
    match findGame db (gameCode.getD "") with
    | none => (db, .err 404 "Game not found")
    | some game =>
      match playerInGame db playerId game.id with
      | none => (db, .err 404 "Player not found in game")
      | some player =>
        if !player.is_projector then (db, .err 403 "Only the host can advance the quiz")
        else
          let quizQuestions := quizQuestionsForGame db game.id
          if quizQuestions.length == 0 then (db, .err 404 "No quiz questions found")
          else
            let totalQuestions := quizQuestions.length
            let currentQuestionNumber := game.current_quiz_question_number.getD 0
            let currentQuestion := quizQuestions.find? (fun q =>
              q.question_order == currentQuestionNumber)
            if action == some "show_results" then
              match currentQuestion with
              | none => (db, .err 404 "Current question not found")
              | some cq =>
                let answers := db.quiz_answers.filter (fun a =>
                  a.quiz_question_id == cq.id)
                let allPlayers := db.players.filter (fun p =>
                  p.game_id == game.id && !p.is_projector)
                let scoreChanges := computeScoreChanges answers allPlayers cq.about_player_id
                let db2 := { db with
                  players := applyScoreChanges allPlayers scoreChanges db.players }
                let db3 := updateGame db2 game.id (fun g => { g with phase := .quiz_results })
                match updatedGame? db3 game.id with
                | some g2 => (db3, .showResults g2 scoreChanges cq.correct_answer)
                | none => (db3, .err 500 "Failed to update game")
            else if action == some "next_question" then
              let nextQuestionNumber := currentQuestionNumber + 1
              if nextQuestionNumber > totalQuestions then
                let db2 := updateGame db game.id (fun g =>
                  { g with
                    phase := .game_over,
                    current_quiz_question_number := some totalQuestions,
                    question_deadline := none })
                match updatedGame? db2 game.id with
                | some g2 => (db2, .gameOver g2)
                | none => (db2, .err 500 "Failed to update game")
              else
                let nextQuestion := quizQuestions.find? (fun q =>
                  q.question_order == nextQuestionNumber)
                let deadline := now + 20000
                let db2 := updateGame db game.id (fun g =>
                  { g with
                    phase := .quiz_question,
                    current_quiz_question_id := nextQuestion.map (fun q => q.id),
                    current_quiz_question_number := some nextQuestionNumber,
                    question_deadline := some deadline })
                match updatedGame? db2 game.id with
                | some g2 => (db2, .next g2 nextQuestionNumber totalQuestions deadline)
                | none => (db2, .err 500 "Failed to update game")
            else (db, .err 400 "Invalid action")

/-!  Spec-side formulations used by the refinement claims. -/

/-- Score delta of one player per the specification wording: for the about
player, +2 on a correct answer and -1 on an incorrect or missing answer; for
any other player, +1 on a correct answer and 0 otherwise. -/
def specDelta (answers : List QuizAnswer) (aboutPlayerId : Nat) (p : Player) : Int :=
  match answers.find? (fun a => a.player_id == p.id) with
  | some a =>
    if p.id == aboutPlayerId then (if a.is_correct then 2 else -1)
    else (if a.is_correct then 1 else 0)
  | none => if p.id == aboutPlayerId then -1 else 0

/-- Score-change list per the specification wording: when no non-host player
submitted an answer the about player loses one point and nobody else
changes; otherwise each non-host player with a nonzero delta is listed with
that delta. -/
def specScoreChanges (answers : List QuizAnswer) (allPlayers : List Player)
    (aboutPlayerId : Nat) : List (Nat × Int) :=
  if allPlayers.all (fun p => answers.all (fun a => a.player_id != p.id)) then
    [(aboutPlayerId, -1)]
  else
    allPlayers.filterMap (fun p =>
      let d := specDelta answers aboutPlayerId p
      if d ≠ 0 then some (p.id, d) else none)

lemma not_contains_map_player_id (answers : List QuizAnswer) (x : Nat) :
    (!((answers.map (fun a => a.player_id)).contains x)) =
      answers.all (fun a => a.player_id != x) := by
  induction answers with
  | nil => rfl
  | cons a as ih =>
    simp only [List.map_cons, List.contains_cons, List.all_cons, Bool.not_or, ih, bne]
    have hcomm : (x == a.player_id) = (a.player_id == x) := by
      by_cases hx : x = a.player_id
      · subst hx; rfl
      · have h1 : (x == a.player_id) = false := by simp [hx]
        have h2 : (a.player_id == x) = false := by simp [Ne.symm hx]
        rw [h1, h2]
    rw [hcomm]

/-- C1: for show_results on the current quiz question, the computed score
changes match the specification's delta table — if no non-host player
answered, the about player gets -1 and nobody else is listed; otherwise each
non-host player is listed exactly when the spec assigns it a nonzero delta
(+2 / -1 for the about player, +1 for a correct guesser), with that delta —
and every listed change carries a nonempty reason string. -/
theorem show_results_scoring_matches_spec (answers : List QuizAnswer)
    (allPlayers : List Player) (aboutPlayerId : Nat) :
    (computeScoreChanges answers allPlayers aboutPlayerId).map
        (fun c => (c.playerId, c.change)) =
      specScoreChanges answers allPlayers aboutPlayerId ∧
    (computeScoreChanges answers allPlayers aboutPlayerId).all
        (fun c => !(c.reason == "")) = true := by
  have hfun : (fun p : Player => !((answers.map (fun a => a.player_id)).contains p.id))
      = (fun p : Player => answers.all fun a => a.player_id != p.id) :=
    funext fun p => not_contains_map_player_id answers p.id
  constructor
  · unfold computeScoreChanges specScoreChanges
    dsimp only
    rw [hfun]
    cases hc : allPlayers.all fun p => answers.all fun a => a.player_id != p.id
    · rw [if_neg (by decide : ¬(false = true)), if_neg (by decide : ¬(false = true))]
      rw [List.map_filterMap]
      apply List.filterMap_congr
      intro p _
      dsimp only
      simp only [specDelta]
      cases hfind : answers.find? (fun a => a.player_id == p.id) with
      | none =>
        by_cases hp : p.id = aboutPlayerId
        · simp [hp]
        · simp [hp]
      | some a =>
        by_cases hp : p.id = aboutPlayerId
        · cases hcorr : a.is_correct <;> simp [hp, hcorr]
        · cases hcorr : a.is_correct <;> simp [hp, hcorr]
    · rw [if_pos (rfl : (true : Bool) = true), if_pos (rfl : (true : Bool) = true)]
      rfl
  · rw [List.all_eq_true]
    intro c hmem
    unfold computeScoreChanges at hmem
    dsimp only at hmem
    split at hmem
    · simp only [List.mem_singleton] at hmem
      subst hmem
      rfl
    · rw [List.mem_filterMap] at hmem
      obtain ⟨p, -, heq⟩ := hmem
      split at heq
      · split at heq
        · split at heq <;> (injection heq with h; subst h; rfl)
        · injection heq with h; subst h; rfl
      · split at heq
        · split at heq
          · injection heq with h; subst h; rfl
          · exact absurd heq (by simp)
        · exact absurd heq (by simp)

end QuizGame

namespace QuizGame

lemma applyScoreChanges_cons (A : List Player) (c : ScoreChange) (cs : List ScoreChange)
    (ps : List Player) :
    applyScoreChanges A (c :: cs) ps =
      applyScoreChanges A cs
        (match A.find? (fun p => p.id == c.playerId) with
          | some t => ps.map (fun p =>
              if p.id == c.playerId then { p with score := max 0 (t.score + c.change) } else p)
          | none => ps) := rfl

lemma applyScoreChanges_nonneg (A : List Player) (cs : List ScoreChange)
    (ps : List Player) (h : ∀ p ∈ ps, 0 ≤ p.score) :
    ∀ p ∈ applyScoreChanges A cs ps, 0 ≤ p.score := by
  induction cs generalizing ps with
  | nil => exact h
  | cons c cs ih =>
    rw [applyScoreChanges_cons]
    apply ih
    cases hf : A.find? (fun p => p.id == c.playerId) with
    | none => exact h
    | some t =>
      intro p hp
      rw [List.mem_map] at hp
      obtain ⟨q, hq, rfl⟩ := hp
      cases hid : (q.id == c.playerId) with
      | true =>
        rw [if_pos rfl]
        exact le_max_left 0 _
      | false =>
        rw [if_neg (by decide)]
        exact h q hq

lemma filter_id_map_update (x cpid : Nat) (s : Int) (l : List Player) (hne : cpid ≠ x) :
    (l.map (fun p => if p.id == cpid then { p with score := s } else p)).filter
      (fun p => p.id == x) = l.filter (fun p => p.id == x) := by
  induction l with
  | nil => rfl
  | cons p ps ih =>
    rw [List.map_cons]
    by_cases h : p.id = cpid
    · have h1 : (p.id == cpid) = true := by simp [h]
      rw [if_pos h1]
      rw [@List.filter_cons_of_neg Player (fun pl : Player => pl.id == x) _ _ (by simp [h, hne])]
      rw [@List.filter_cons_of_neg Player (fun pl : Player => pl.id == x) _ _ (by simp [h, hne])]
      exact ih
    · have h1 : ¬((p.id == cpid) = true) := by simp [h]
      rw [if_neg h1]
      by_cases hx : p.id = x
      · have h2 : (p.id == x) = true := by simp [hx]
        rw [@List.filter_cons_of_pos Player (fun pl : Player => pl.id == x) _ _ h2]
        rw [@List.filter_cons_of_pos Player (fun pl : Player => pl.id == x) _ _ h2]
        rw [ih]
      · have h2 : ¬((p.id == x) = true) := by simp [hx]
        rw [@List.filter_cons_of_neg Player (fun pl : Player => pl.id == x) _ _ h2]
        rw [@List.filter_cons_of_neg Player (fun pl : Player => pl.id == x) _ _ h2]
        exact ih

lemma applyScoreChanges_filter_of_not_mem (A : List Player) (cs : List ScoreChange)
    (ps : List Player) (x : Nat) (hx : ∀ c ∈ cs, c.playerId ≠ x) :
    (applyScoreChanges A cs ps).filter (fun p => p.id == x) =
      ps.filter (fun p => p.id == x) := by
  induction cs generalizing ps with
  | nil => rfl
  | cons c cs ih =>
    rw [applyScoreChanges_cons]
    rw [ih _ (fun d hd => hx d (List.mem_cons_of_mem _ hd))]
    cases hf : A.find? (fun p => p.id == c.playerId) with
    | none => rfl
    | some t => exact filter_id_map_update x c.playerId _ ps (hx c (List.mem_cons_self _ _))

lemma applyScoreChanges_clamp (A : List Player) (cs : List ScoreChange) (ps : List Player)
    (hnodup : (cs.map (fun c => c.playerId)).Nodup) :
    ∀ c ∈ cs, ∀ t, A.find? (fun p => p.id == c.playerId) = some t →
      ∀ r ∈ applyScoreChanges A cs ps, r.id = c.playerId →
        r.score = max 0 (t.score + c.change) := by
  induction cs generalizing ps with
  | nil => intro c hc; cases hc
  | cons c0 cs ih =>
    intro c hc t ht r hr hrid
    rw [List.map_cons, List.nodup_cons] at hnodup
    rcases List.mem_cons.mp hc with rfl | hc2
    · rw [applyScoreChanges_cons, ht] at hr
      have hother : ∀ d ∈ cs, d.playerId ≠ c.playerId := by
        intro d hd he
        exact hnodup.1 (he ▸ List.mem_map_of_mem (fun dd => dd.playerId) hd)
      have hrf : r ∈ (applyScoreChanges A cs
          (ps.map (fun p => if p.id == c.playerId then
            { p with score := max 0 (t.score + c.change) } else p))).filter
          (fun p => p.id == c.playerId) :=
        List.mem_filter.mpr ⟨hr, by simp [hrid]⟩
      rw [applyScoreChanges_filter_of_not_mem A cs _ c.playerId hother] at hrf
      have hrm := (List.mem_filter.mp hrf).1
      rw [List.mem_map] at hrm
      obtain ⟨q, hq, rfl⟩ := hrm
      cases hzid : (q.id == c.playerId) with
      | true => rw [if_pos rfl]
      | false =>
        exfalso
        rw [if_neg (by simp [hzid])] at hrid
        simp [hrid] at hzid
    · rw [applyScoreChanges_cons] at hr
      exact ih _ hnodup.2 c hc2 t ht r hr hrid

end QuizGame

namespace QuizGame

lemma quizNext_nonneg (db : DB) (gc : Option String) (pid : Option Nat)
    (act : Option String) (now : Nat) (h : ∀ p ∈ db.players, 0 ≤ p.score) :
    ∀ p ∈ (quizNext db gc pid act now).1.players, 0 ≤ p.score := by
  unfold quizNext updateGame updatedGame?
  repeat (first | exact h | exact applyScoreChanges_nonneg _ _ _ h | split | dsimp only)

lemma createGame_nonneg (db : DB) (n : Option String) (c : String)
    (h : ∀ p ∈ db.players, 0 ≤ p.score) :
    ∀ p ∈ (createGame db n c).1.players, 0 ≤ p.score := by
  unfold createGame
  repeat (first | exact h | split | dsimp only)
  intro p hp
  rcases List.mem_append.mp hp with hp1 | hp2
  · exact h p hp1
  · rw [List.mem_singleton] at hp2
    subst hp2
    exact le_refl 0

lemma joinGame_nonneg (db : DB) (gc n : Option String)
    (h : ∀ p ∈ db.players, 0 ≤ p.score) :
    ∀ p ∈ (joinGame db gc n).1.players, 0 ≤ p.score := by
  unfold joinGame
  repeat (first | exact h | split | dsimp only)
  intro p hp
  rcases List.mem_append.mp hp with hp1 | hp2
  · exact h p hp1
  · rw [List.mem_singleton] at hp2
    subst hp2
    exact le_refl 0

lemma startGame_players (db : DB) (gc : Option String) (pid : Option Nat) :
    (startGame db gc pid).1.players = db.players := by
  unfold startGame updateGame updatedGame?
  repeat (first | rfl | split | dsimp only)

lemma generateQuestionsRoute_players (db : DB) (gc : Option String) (pid : Option Nat)
    (llm : Option (Option (List String))) :
    (generateQuestionsRoute db gc pid llm).1.players = db.players := by
  unfold generateQuestionsRoute updateGame
  repeat (first | rfl | split | dsimp only)

lemma submitAnswer_players (db : DB) (qid pid : Option Nat) (ans : Option String) :
    (submitAnswer db qid pid ans).1.players = db.players := by
  unfold submitAnswer
  repeat (first | rfl | split | dsimp only)

lemma icebreakerNext_players (db : DB) (gc : Option String) (pid : Option Nat)
    (act : Option String) :
    (icebreakerNext db gc pid act).1.players = db.players := by
  unfold icebreakerNext updateGame updatedGame?
  repeat (first | rfl | split | dsimp only)

lemma quizGenerate_players (db : DB) (gc : Option String) (pid : Option Nat)
    (llm : PlayerIcebreakerData → Option (List RawQuizQuestion)) (now : Nat) :
    (quizGenerate db gc pid llm now).1.players = db.players := by
  unfold quizGenerate updateGame
  repeat (first | rfl | split | dsimp only)

lemma quizSubmitAnswer_players (db : DB) (qqid pid : Option Nat) (sel : Option String) :
    (quizSubmitAnswer db qqid pid sel).1.players = db.players := by
  unfold quizSubmitAnswer
  repeat (first | rfl | split | dsimp only)

/-- C2: show_results stores, for each scored player, exactly
`max 0 (previous score + delta)` (so a player at 0 receiving -1 stays at 0),
and every engine operation preserves nonnegativity of all player scores —
the score-writing operations clamp or write 0, and all others leave the
players table unchanged. -/
theorem scores_clamped_never_negative :
    (∀ (A : List Player) (cs : List ScoreChange) (ps : List Player),
      (cs.map (fun c => c.playerId)).Nodup →
      ∀ c ∈ cs, ∀ t, A.find? (fun p => p.id == c.playerId) = some t →
        ∀ r ∈ applyScoreChanges A cs ps, r.id = c.playerId →
          r.score = max 0 (t.score + c.change)) ∧
    (∀ db gc pid act now, (∀ p ∈ db.players, 0 ≤ p.score) →
      ∀ p ∈ (quizNext db gc pid act now).1.players, 0 ≤ p.score) ∧
    (∀ db n c, (∀ p ∈ db.players, 0 ≤ p.score) →
      ∀ p ∈ (createGame db n c).1.players, 0 ≤ p.score) ∧
    (∀ db gc n, (∀ p ∈ db.players, 0 ≤ p.score) →
      ∀ p ∈ (joinGame db gc n).1.players, 0 ≤ p.score) ∧
    (∀ db gc pid, (startGame db gc pid).1.players = db.players) ∧
    (∀ db gc pid llm, (generateQuestionsRoute db gc pid llm).1.players = db.players) ∧
    (∀ db qid pid ans, (submitAnswer db qid pid ans).1.players = db.players) ∧
    (∀ db gc pid act, (icebreakerNext db gc pid act).1.players = db.players) ∧
    (∀ db gc pid llm now, (quizGenerate db gc pid llm now).1.players = db.players) ∧
    (∀ db qqid pid sel, (quizSubmitAnswer db qqid pid sel).1.players = db.players) :=
  ⟨applyScoreChanges_clamp,
   quizNext_nonneg,
   createGame_nonneg,
   joinGame_nonneg,
   startGame_players,
   generateQuestionsRoute_players,
   submitAnswer_players,
   icebreakerNext_players,
   quizGenerate_players,
   quizSubmitAnswer_players⟩

/-- Concrete instance of the clamping theorem: a player at score 0 receiving
a -1 delta ends at max 0 (0 - 1) = 0. -/
theorem scores_clamped_never_negative_witness :
    ({ id := 7, game_id := 1, name := "B", is_projector := false, score := 0,
       avatar_color := "c" } : Player).score = max 0 ((0 : Int) + (-1)) := by
  have h := scores_clamped_never_negative.1
    [{ id := 7, game_id := 1, name := "B", is_projector := false, score := 0,
       avatar_color := "c" }]
    [{ playerId := 7, change := -1, reason := "r" }]
    [{ id := 7, game_id := 1, name := "B", is_projector := false, score := 0,
       avatar_color := "c" }]
    (by decide)
    { playerId := 7, change := -1, reason := "r" } (by decide)
    { id := 7, game_id := 1, name := "B", is_projector := false, score := 0,
      avatar_color := "c" } (by decide)
    { id := 7, game_id := 1, name := "B", is_projector := false, score := 0,
      avatar_color := "c" } (by decide) (by decide)
  exact h

end QuizGame

namespace QuizGame

/-- Documented phase adjacency of the specification state machine:
lobby → asking ⇄ showing_answers → quiz → quiz_question ⇄ quiz_results →
game_over. -/
def allowedTransition : Phase → Phase → Bool
  | .lobby, .asking => true
  | .asking, .showing_answers => true
  | .showing_answers, .asking => true
  | .showing_answers, .quiz => true
  | .quiz, .quiz_question => true
  | .quiz_question, .quiz_results => true
  | .quiz_results, .quiz_question => true
  | .quiz_results, .game_over => true
  | _, _ => false

/-- Session already in quiz_results, with its icebreaker questions still
stored, used to exhibit a backward phase jump. -/
def sessionAtQuizResults : GameSession :=
  { id := 0, code := "AB", status := .playing, phase := .quiz_results,
    current_question_id := none, current_question_number := some 3,
    current_quiz_question_id := none, current_quiz_question_number := some 1,
    quiz_started_at := none, question_deadline := none }

/-- Database containing `sessionAtQuizResults`, its host, and one icebreaker
question. -/
def dbAtQuizResults : DB :=
  { game_sessions := [sessionAtQuizResults],
    players := [{ id := 1, game_id := 0, name := "H", is_projector := true,
                  score := 0, avatar_color := "x" }],
    questions := [{ id := 2, game_id := 0, question_number := 1, question_text := "q" }],
    answers := [], quiz_questions := [], quiz_answers := [], nextId := 10 }

/-- C3 counterexample: from a session in quiz_results, the host calling the
icebreaker advance endpoint with show_answers moves the phase back to
showing_answers — a transition the documented adjacency forbids.  The
handlers never consult the current phase. -/
theorem phase_adjacency_counterexample :
    allowedTransition Phase.quiz_results Phase.showing_answers = false ∧
    dbAtQuizResults.game_sessions.map (fun g => g.phase) = [Phase.quiz_results] ∧
    (icebreakerNext dbAtQuizResults (some "AB") (some 1)
        (some "show_answers")).1.game_sessions.map (fun g => g.phase) =
      [Phase.showing_answers] := by
  refine ⟨rfl, rfl, ?_⟩
  decide

lemma mem_updateGame_phase (db : DB) (gid : Nat) (f : GameSession → GameSession)
    (ph : Phase) (hf : ∀ g, (f g).phase = ph) (g' : GameSession)
    (h : g' ∈ (updateGame db gid f).game_sessions) :
    g' ∈ db.game_sessions ∨ g'.phase = ph := by
  unfold updateGame at h
  dsimp only at h
  rw [List.mem_map] at h
  obtain ⟨g, hg, rfl⟩ := h
  by_cases hid : (g.id == gid) = true
  · right
    rw [if_pos hid]
    exact hf g
  · left
    rw [if_neg hid]
    exact hg

lemma updateGame_phases_of_preserve (db : DB) (gid : Nat) (f : GameSession → GameSession)
    (hf : ∀ g, (f g).phase = g.phase) :
    (updateGame db gid f).game_sessions.map (fun g => g.phase) =
      db.game_sessions.map (fun g => g.phase) := by
  unfold updateGame
  dsimp only
  rw [List.map_map]
  have h : ((fun g : GameSession => g.phase) ∘
      (fun g => if (g.id == gid) = true then f g else g)) =
      fun g : GameSession => g.phase := by
    funext g
    dsimp only [Function.comp]
    split
    · exact hf g
    · rfl
  rw [h]

lemma icebreakerNext_phase_writes (db : DB) (gc : Option String) (pid : Option Nat)
    (act : Option String) :
    ∀ g' ∈ (icebreakerNext db gc pid act).1.game_sessions,
      g' ∈ db.game_sessions ∨ g'.phase = Phase.showing_answers ∨
        g'.phase = Phase.asking ∨ g'.phase = Phase.quiz := by
  intro g'
  unfold icebreakerNext updatedGame?
  repeat (first
    | (intro hg'; left; exact hg')
    | (intro hg'
       exact (mem_updateGame_phase _ _ _ Phase.showing_answers (fun g => rfl) g' hg').imp id
        (fun hp => Or.inl hp))
    | (intro hg'
       exact (mem_updateGame_phase _ _ _ Phase.asking (fun g => rfl) g' hg').imp id
        (fun hp => Or.inr (Or.inl hp)))
    | (intro hg'
       exact (mem_updateGame_phase _ _ _ Phase.quiz (fun g => rfl) g' hg').imp id
        (fun hp => Or.inr (Or.inr hp)))
    | split
    | dsimp only)

end QuizGame

namespace QuizGame

lemma quizNext_phase_writes (db : DB) (gc : Option String) (pid : Option Nat)
    (act : Option String) (now : Nat) :
    ∀ g' ∈ (quizNext db gc pid act now).1.game_sessions,
      g' ∈ db.game_sessions ∨ g'.phase = Phase.quiz_results ∨
        g'.phase = Phase.game_over ∨ g'.phase = Phase.quiz_question := by
  intro g'
  unfold quizNext updatedGame?
  repeat (first
    | (intro hg'; left; exact hg')
    | (intro hg'
       exact (mem_updateGame_phase _ _ _ Phase.quiz_results (fun g => rfl) g' hg').imp id
        (fun hp => Or.inl hp))
    | (intro hg'
       exact (mem_updateGame_phase _ _ _ Phase.game_over (fun g => rfl) g' hg').imp id
        (fun hp => Or.inr (Or.inl hp)))
    | (intro hg'
       exact (mem_updateGame_phase _ _ _ Phase.quiz_question (fun g => rfl) g' hg').imp id
        (fun hp => Or.inr (Or.inr hp)))
    | split
    | dsimp only)

lemma generateQuestionsRoute_phase_writes (db : DB) (gc : Option String)
    (pid : Option Nat) (llm : Option (Option (List String))) :
    ∀ g' ∈ (generateQuestionsRoute db gc pid llm).1.game_sessions,
      g' ∈ db.game_sessions ∨ g'.phase = Phase.asking := by
  intro g'
  unfold generateQuestionsRoute
  repeat (first
    | (intro hg'; left; exact hg')
    | (intro hg'
       exact (mem_updateGame_phase _ _ _ Phase.asking (fun g => rfl) g' hg').imp id id)
    | split
    | dsimp only)

lemma quizGenerate_phase_writes (db : DB) (gc : Option String) (pid : Option Nat)
    (llm : PlayerIcebreakerData → Option (List RawQuizQuestion)) (now : Nat) :
    ∀ g' ∈ (quizGenerate db gc pid llm now).1.game_sessions,
      g' ∈ db.game_sessions ∨ g'.phase = Phase.quiz_question := by
  intro g'
  unfold quizGenerate
  repeat (first
    | (intro hg'; left; exact hg')
    | (intro hg'
       exact (mem_updateGame_phase _ _ _ Phase.quiz_question (fun g => rfl) g' hg').imp id id)
    | split
    | dsimp only)

lemma createGame_phase_writes (db : DB) (n : Option String) (c : String) :
    ∀ g' ∈ (createGame db n c).1.game_sessions,
      g' ∈ db.game_sessions ∨ g'.phase = Phase.lobby := by
  intro g'
  unfold createGame
  repeat (first | (intro hg'; left; exact hg') | split | dsimp only)
  intro hg'
  rcases List.mem_append.mp hg' with h1 | h2
  · left; exact h1
  · right
    rw [List.mem_singleton] at h2
    subst h2
    rfl

lemma startGame_phases (db : DB) (gc : Option String) (pid : Option Nat) :
    (startGame db gc pid).1.game_sessions.map (fun g => g.phase) =
      db.game_sessions.map (fun g => g.phase) := by
  unfold startGame updatedGame?
  repeat (first
    | rfl
    | (exact updateGame_phases_of_preserve _ _ _ (fun g => rfl))
    | split
    | dsimp only)

lemma joinGame_sessions (db : DB) (gc n : Option String) :
    (joinGame db gc n).1.game_sessions = db.game_sessions := by
  unfold joinGame
  repeat (first | rfl | split | dsimp only)

lemma submitAnswer_sessions (db : DB) (qid pid : Option Nat) (ans : Option String) :
    (submitAnswer db qid pid ans).1.game_sessions = db.game_sessions := by
  unfold submitAnswer
  repeat (first | rfl | split | dsimp only)

lemma quizSubmitAnswer_sessions (db : DB) (qqid pid : Option Nat) (sel : Option String) :
    (quizSubmitAnswer db qqid pid sel).1.game_sessions = db.game_sessions := by
  unfold quizSubmitAnswer
  repeat (first | rfl | split | dsimp only)

/-- C3 amended: phase takes only the 7 defined values, but the handlers never
guard on the current phase — each operation either leaves a session row
unchanged or overwrites its phase with one of that operation's fixed target
phases (icebreaker advance: showing_answers/asking/quiz; quiz advance:
quiz_results/game_over/quiz_question; icebreaker generation: asking; quiz
generation: quiz_question; create: lobby; the remaining operations never
change any phase), regardless of the previous phase.  The documented
adjacency therefore holds only when the host happens to call the actions in
the documented order. -/
theorem phase_writes_action_determined :
    (∀ ph : Phase, ph ∈ [Phase.lobby, Phase.asking, Phase.showing_answers, Phase.quiz,
        Phase.quiz_question, Phase.quiz_results, Phase.game_over]) ∧
    (∀ db gc pid act, ∀ g' ∈ (icebreakerNext db gc pid act).1.game_sessions,
      g' ∈ db.game_sessions ∨ g'.phase = Phase.showing_answers ∨
        g'.phase = Phase.asking ∨ g'.phase = Phase.quiz) ∧
    (∀ db gc pid act now, ∀ g' ∈ (quizNext db gc pid act now).1.game_sessions,
      g' ∈ db.game_sessions ∨ g'.phase = Phase.quiz_results ∨
        g'.phase = Phase.game_over ∨ g'.phase = Phase.quiz_question) ∧
    (∀ db gc pid llm, ∀ g' ∈ (generateQuestionsRoute db gc pid llm).1.game_sessions,
      g' ∈ db.game_sessions ∨ g'.phase = Phase.asking) ∧
    (∀ db gc pid llm now, ∀ g' ∈ (quizGenerate db gc pid llm now).1.game_sessions,
      g' ∈ db.game_sessions ∨ g'.phase = Phase.quiz_question) ∧
    (∀ db n c, ∀ g' ∈ (createGame db n c).1.game_sessions,
      g' ∈ db.game_sessions ∨ g'.phase = Phase.lobby) ∧
    (∀ db gc pid, (startGame db gc pid).1.game_sessions.map (fun g => g.phase) =
      db.game_sessions.map (fun g => g.phase)) ∧
    (∀ db gc n, (joinGame db gc n).1.game_sessions = db.game_sessions) ∧
    (∀ db qid pid ans, (submitAnswer db qid pid ans).1.game_sessions = db.game_sessions) ∧
    (∀ db qqid pid sel,
      (quizSubmitAnswer db qqid pid sel).1.game_sessions = db.game_sessions) :=
  ⟨fun ph => by cases ph <;> simp,
   icebreakerNext_phase_writes,
   quizNext_phase_writes,
   generateQuestionsRoute_phase_writes,
   quizGenerate_phase_writes,
   createGame_phase_writes,
   startGame_phases,
   joinGame_sessions,
   submitAnswer_sessions,
   quizSubmitAnswer_sessions⟩

/-- Concrete instance of the amended C3 theorem at the quiz_results database:
the session row produced by show_answers is either an old row or carries one
of the icebreaker advance handler's target phases. -/
theorem phase_writes_action_determined_witness :
    { sessionAtQuizResults with phase := Phase.showing_answers } ∈
        dbAtQuizResults.game_sessions ∨
      ({ sessionAtQuizResults with phase := Phase.showing_answers } :
          GameSession).phase = Phase.showing_answers ∨
      ({ sessionAtQuizResults with phase := Phase.showing_answers } :
          GameSession).phase = Phase.asking ∨
      ({ sessionAtQuizResults with phase := Phase.showing_answers } :
          GameSession).phase = Phase.quiz :=
  phase_writes_action_determined.2.1 dbAtQuizResults (some "AB") (some 1)
    (some "show_answers")
    { sessionAtQuizResults with phase := Phase.showing_answers } (by decide)

end QuizGame

namespace QuizGame

/-- C4: for next_question in both rounds, if the current ordinal + 1 exceeds
the round's question count, the session advances to the next macro-phase
with the ordinal clamped to the total (the quiz round also clears the
deadline); otherwise the ordinal is incremented, the current-question
pointer is set to the question carrying that ordinal, and the phase becomes
asking (icebreaker) resp. quiz_question with a fresh now+20s deadline. -/
theorem next_question_advances :
    (∀ db gc pid game host,
      gc ≠ "" →
      findGame db gc = some game →
      playerInGame db (some pid) game.id = some host →
      host.is_projector = true →
      questionsForGame db game.id ≠ [] →
      ((game.current_question_number.getD 0) + 1 > (questionsForGame db game.id).length →
        (icebreakerNext db (some gc) (some pid) (some "next_question")).1 =
          updateGame db game.id (fun g =>
            { g with
              phase := Phase.quiz,
              current_question_number := some (questionsForGame db game.id).length })) ∧
      (∀ q, (game.current_question_number.getD 0) + 1 ≤ (questionsForGame db game.id).length →
        (questionsForGame db game.id).find? (fun x =>
            x.question_number == (game.current_question_number.getD 0) + 1) = some q →
        (icebreakerNext db (some gc) (some pid) (some "next_question")).1 =
          updateGame db game.id (fun g =>
            { g with
              phase := Phase.asking,
              current_question_number := some ((game.current_question_number.getD 0) + 1),
              current_question_id := some q.id }))) ∧
    (∀ db gc pid game host now,
      gc ≠ "" →
      findGame db gc = some game →
      playerInGame db (some pid) game.id = some host →
      host.is_projector = true →
      quizQuestionsForGame db game.id ≠ [] →
      ((game.current_quiz_question_number.getD 0) + 1 >
          (quizQuestionsForGame db game.id).length →
        (quizNext db (some gc) (some pid) (some "next_question") now).1 =
          updateGame db game.id (fun g =>
            { g with
              phase := Phase.game_over,
              current_quiz_question_number := some (quizQuestionsForGame db game.id).length,
              question_deadline := none })) ∧
      (∀ q, (game.current_quiz_question_number.getD 0) + 1 ≤
          (quizQuestionsForGame db game.id).length →
        (quizQuestionsForGame db game.id).find? (fun x =>
            x.question_order == (game.current_quiz_question_number.getD 0) + 1) = some q →
        (quizNext db (some gc) (some pid) (some "next_question") now).1 =
          updateGame db game.id (fun g =>
            { g with
              phase := Phase.quiz_question,
              current_quiz_question_id := some q.id,
              current_quiz_question_number :=
                some ((game.current_quiz_question_number.getD 0) + 1),
              question_deadline := some (now + 20000) }))) := by
  constructor
  · intro db gc pid game host hgc h2 h3 h4 h5
    have hcond : (!(strPresent (some gc)) || (some pid : Option Nat).isNone) = false := by
      simp [strPresent, hgc]
    have hlen : ((questionsForGame db game.id).length == 0) = false := by
      simp [List.length_eq_zero, h5]
    have hact1 : ((some "next_question" : Option String) == some "show_answers") = false := by
      decide
    have hact2 : ((some "next_question" : Option String) == some "next_question") = true := by
      decide
    constructor
    · intro hover
      simp only [icebreakerNext, hcond, Bool.false_eq_true, if_false, if_true,
        Option.getD_some, h2, h3, h4, Bool.not_true, hlen, hact1, hact2]
      rw [if_pos hover]
      split <;> rfl
    · intro q hle hfind
      simp only [icebreakerNext, hcond, Bool.false_eq_true, if_false, if_true,
        Option.getD_some, h2, h3, h4, Bool.not_true, hlen, hact1, hact2]
      rw [if_neg (by omega), hfind]
      split <;> rfl
  · intro db gc pid game host now hgc h2 h3 h4 h5
    have hcond : (!(strPresent (some gc)) || (some pid : Option Nat).isNone) = false := by
      simp [strPresent, hgc]
    have hlen : ((quizQuestionsForGame db game.id).length == 0) = false := by
      simp [List.length_eq_zero, h5]
    have hact1 : ((some "next_question" : Option String) == some "show_results") = false := by
      decide
    have hact2 : ((some "next_question" : Option String) == some "next_question") = true := by
      decide
    constructor
    · intro hover
      simp only [quizNext, hcond, Bool.false_eq_true, if_false, if_true,
        Option.getD_some, h2, h3, h4, Bool.not_true, hlen, hact1, hact2]
      rw [if_pos hover]
      split <;> rfl
    · intro q hle hfind
      simp only [quizNext, hcond, Bool.false_eq_true, if_false, if_true,
        Option.getD_some, h2, h3, h4, Bool.not_true, hlen, hact1, hact2]
      rw [if_neg (by omega), hfind]
      split <;> rfl

/-- Session used to exercise the next_question branches: icebreaker ordinal
already at its total, quiz ordinal still 0. -/
def sessionForAdvance : GameSession :=
  { id := 0, code := "GG", status := .playing, phase := .showing_answers,
    current_question_id := some 2, current_question_number := some 1,
    current_quiz_question_id := none, current_quiz_question_number := some 0,
    quiz_started_at := none, question_deadline := none }

/-- Database with `sessionForAdvance`, its host, one icebreaker question and
one quiz question. -/
def dbForAdvance : DB :=
  { game_sessions := [sessionForAdvance],
    players := [{ id := 1, game_id := 0, name := "H", is_projector := true,
                  score := 0, avatar_color := "x" }],
    questions := [{ id := 2, game_id := 0, question_number := 1, question_text := "q" }],
    answers := [],
    quiz_questions := [{ id := 5, game_id := 0, about_player_id := 3,
                         question_text := "qq", correct_answer := "A", option_a := "a",
                         option_b := "b", option_c := "c", option_d := "d",
                         question_order := 1 }],
    quiz_answers := [], nextId := 10 }

/-- Concrete instance of the next_question theorem: the icebreaker round at
its last ordinal advances to phase quiz with the ordinal clamped, and the
quiz round at ordinal 0 advances to quiz_question 1 with a 20-second
deadline. -/
theorem next_question_advances_witness :
    (icebreakerNext dbForAdvance (some "GG") (some 1) (some "next_question")).1 =
      updateGame dbForAdvance 0 (fun g =>
        { g with phase := Phase.quiz, current_question_number := some 1 }) ∧
    (quizNext dbForAdvance (some "GG") (some 1) (some "next_question") 1000).1 =
      updateGame dbForAdvance 0 (fun g =>
        { g with
          phase := Phase.quiz_question,
          current_quiz_question_id := some 5,
          current_quiz_question_number := some 1,
          question_deadline := some 21000 }) :=
  ⟨(next_question_advances.1 dbForAdvance "GG" 1 sessionForAdvance
      { id := 1, game_id := 0, name := "H", is_projector := true, score := 0,
        avatar_color := "x" }
      (by decide) rfl rfl rfl (by decide)).1 (by decide),
   (next_question_advances.2 dbForAdvance "GG" 1 sessionForAdvance
      { id := 1, game_id := 0, name := "H", is_projector := true, score := 0,
        avatar_color := "x" } 1000
      (by decide) rfl rfl rfl (by decide)).2
     { id := 5, game_id := 0, about_player_id := 3, question_text := "qq",
       correct_answer := "A", option_a := "a", option_b := "b", option_c := "c",
       option_d := "d", question_order := 1 }
     (by decide) rfl⟩

end QuizGame

namespace QuizGame

/-- C5: a second quiz-answer submission for an already-answered
(question, player) pair is rejected — status 400, the spec taxonomy's
Conflict case — carrying the already-stored answer, and the stored row
(selected_option, is_correct) is left unchanged because the whole database
is returned unmodified. -/
theorem duplicate_quiz_answer_rejected (db : DB) (qqid pid : Nat) (sel : String)
    (player : Player) (question : QuizQuestion) (a : QuizAnswer)
    (hsel : sel ∈ VALID_OPTIONS)
    (hp : playerById db (some pid) = some player)
    (hq : quizQuestionById db (some qqid) = some question)
    (hdup : db.quiz_answers.filter (fun x =>
      x.quiz_question_id == qqid && x.player_id == pid) = [a]) :
    quizSubmitAnswer db (some qqid) (some pid) (some sel) =
      (db, .alreadyAnswered 400 "Already answered this question" a) ∧
    (quizSubmitAnswer db (some qqid) (some pid) (some sel)).1.quiz_answers.filter
      (fun x => x.quiz_question_id == qqid && x.player_id == pid) = [a] := by
  have hc : VALID_OPTIONS.contains sel = true := by fin_cases hsel <;> decide
  have hsne : (sel == "") = false := by fin_cases hsel <;> decide
  have h1 : quizSubmitAnswer db (some qqid) (some pid) (some sel) =
      (db, .alreadyAnswered 400 "Already answered this question" a) := by
    simp only [quizSubmitAnswer, Option.isNone_some, strPresent, hsne, Bool.not_false,
      Bool.not_true, Bool.or_false, Bool.false_or, Bool.or_self, Bool.false_eq_true,
      if_false, Option.getD_some, hc, hp, hq, hdup]
  exact ⟨h1, by rw [h1]; exact hdup⟩

/-- Database holding one stored quiz answer, used to instantiate the
duplicate-rejection theorem. -/
def dbWithQuizAnswer : DB :=
  { game_sessions := [],
    players := [{ id := 2, game_id := 0, name := "B", is_projector := false,
                  score := 0, avatar_color := "x" }],
    questions := [],
    answers := [],
    quiz_questions := [{ id := 5, game_id := 0, about_player_id := 2,
                         question_text := "qq", correct_answer := "A", option_a := "a",
                         option_b := "b", option_c := "c", option_d := "d",
                         question_order := 1 }],
    quiz_answers := [{ id := 8, quiz_question_id := 5, player_id := 2,
                       selected_option := "B", is_correct := false }],
    nextId := 10 }

/-- Concrete instance of the duplicate-rejection theorem. -/
theorem duplicate_quiz_answer_rejected_witness :
    quizSubmitAnswer dbWithQuizAnswer (some 5) (some 2) (some "A") =
      (dbWithQuizAnswer, .alreadyAnswered 400 "Already answered this question"
        { id := 8, quiz_question_id := 5, player_id := 2, selected_option := "B",
          is_correct := false }) ∧
    (quizSubmitAnswer dbWithQuizAnswer (some 5) (some 2) (some "A")).1.quiz_answers.filter
      (fun x => x.quiz_question_id == 5 && x.player_id == 2) =
      [{ id := 8, quiz_question_id := 5, player_id := 2, selected_option := "B",
         is_correct := false }] :=
  duplicate_quiz_answer_rejected dbWithQuizAnswer 5 2 "A"
    { id := 2, game_id := 0, name := "B", is_projector := false, score := 0,
      avatar_color := "x" }
    { id := 5, game_id := 0, about_player_id := 2, question_text := "qq",
      correct_answer := "A", option_a := "a", option_b := "b", option_c := "c",
      option_d := "d", question_order := 1 }
    { id := 8, quiz_question_id := 5, player_id := 2, selected_option := "B",
      is_correct := false }
    (by decide) rfl rfl rfl

lemma filter_key_map_const (qid pid : Nat) (row : Answer)
    (hrow : (row.question_id == qid && row.player_id == pid) = true) (l : List Answer) :
    (l.map (fun a => if a.question_id == qid && a.player_id == pid then row else a)).filter
      (fun a => a.question_id == qid && a.player_id == pid) =
      (l.filter (fun a => a.question_id == qid && a.player_id == pid)).map
        (fun _ => row) := by
  induction l with
  | nil => rfl
  | cons a as ih =>
    by_cases h : (a.question_id == qid && a.player_id == pid) = true
    · rw [List.map_cons, if_pos h]
      rw [@List.filter_cons_of_pos Answer
        (fun a => a.question_id == qid && a.player_id == pid) row _ hrow]
      rw [@List.filter_cons_of_pos Answer
        (fun a => a.question_id == qid && a.player_id == pid) a _ h]
      rw [List.map_cons, ih]
    · rw [List.map_cons, if_neg h]
      rw [@List.filter_cons_of_neg Answer
        (fun a => a.question_id == qid && a.player_id == pid) a _ h]
      rw [@List.filter_cons_of_neg Answer
        (fun a => a.question_id == qid && a.player_id == pid) a _ h]
      exact ih

lemma submitAnswer_update_case (db : DB) (qid pid : Nat) (t : String) (r : Answer)
    (player : Player) (question : Question) (ht : t ≠ "")
    (hp : playerById db (some pid) = some player)
    (hq : questionById db (some qid) = some question)
    (hk : db.answers.filter (fun a => a.question_id == qid && a.player_id == pid) = [r]) :
    ((submitAnswer db (some qid) (some pid) (some t)).1.answers.filter
      (fun a => a.question_id == qid && a.player_id == pid)).map
        (fun a => a.answer_text) = [t.trim] := by
  have ht2 : (t == "") = false := by simp [ht]
  have hr : (r.question_id == qid && r.player_id == pid) = true := by
    have hmem : r ∈ db.answers.filter (fun a =>
        a.question_id == qid && a.player_id == pid) := by
      rw [hk]
      exact List.mem_singleton_self r
    exact (List.mem_filter.mp hmem).2
  simp only [submitAnswer, Option.isNone_some, strPresent, ht2, Bool.not_false,
    Bool.not_true, Bool.or_false, Bool.false_or, Bool.false_eq_true, if_false,
    hp, hq, Option.getD_some, hk]
  rw [filter_key_map_const qid pid { r with answer_text := t.trim } hr, hk,
    List.map_cons, List.map_nil, List.map_cons, List.map_nil]

/-- C6: icebreaker answer submission upserts on (question, player): after
submitting text t1 and then t2 for the same pair, exactly one row for the
pair is stored and its text is the later (trimmed) submission. -/
theorem answer_upsert_last_write_wins (db : DB) (qid pid : Nat) (t1 t2 : String)
    (player : Player) (question : Question)
    (h1 : t1 ≠ "") (h2 : t2 ≠ "")
    (hp : playerById db (some pid) = some player)
    (hq : questionById db (some qid) = some question)
    (hkey : db.answers.filter (fun a => a.question_id == qid && a.player_id == pid) = []
      ∨ ∃ old, db.answers.filter (fun a =>
          a.question_id == qid && a.player_id == pid) = [old]) :
    ((submitAnswer (submitAnswer db (some qid) (some pid) (some t1)).1
        (some qid) (some pid) (some t2)).1.answers.filter
      (fun a => a.question_id == qid && a.player_id == pid)).map
        (fun a => a.answer_text) = [t2.trim] := by
  have ht1 : (t1 == "") = false := by simp [h1]
  rcases hkey with hk | ⟨old, hk⟩
  · have e1 : (submitAnswer db (some qid) (some pid) (some t1)).1 =
        { db with
          answers := db.answers ++
            [{ id := db.nextId, question_id := qid, player_id := pid,
               answer_text := t1.trim }],
          nextId := db.nextId + 1 } := by
      simp only [submitAnswer, Option.isNone_some, strPresent, ht1, Bool.not_false,
        Bool.not_true, Bool.or_false, Bool.false_or, Bool.false_eq_true, if_false,
        hp, hq, Option.getD_some, hk]
    rw [e1]
    refine submitAnswer_update_case _ qid pid t2
      { id := db.nextId, question_id := qid, player_id := pid, answer_text := t1.trim }
      player question h2 hp hq ?_
    rw [List.filter_append, hk]
    rw [@List.filter_cons_of_pos Answer
      (fun a => a.question_id == qid && a.player_id == pid)
      { id := db.nextId, question_id := qid, player_id := pid, answer_text := t1.trim }
      _ (by simp)]
    rfl
  · have hold : (old.question_id == qid && old.player_id == pid) = true := by
      have hmem : old ∈ db.answers.filter (fun a =>
          a.question_id == qid && a.player_id == pid) := by
        rw [hk]
        exact List.mem_singleton_self old
      exact (List.mem_filter.mp hmem).2
    have e1 : (submitAnswer db (some qid) (some pid) (some t1)).1 =
        { db with
          answers := db.answers.map (fun a =>
            if a.question_id == qid && a.player_id == pid then
              { old with answer_text := t1.trim } else a) } := by
      simp only [submitAnswer, Option.isNone_some, strPresent, ht1, Bool.not_false,
        Bool.not_true, Bool.or_false, Bool.false_or, Bool.false_eq_true, if_false,
        hp, hq, Option.getD_some, hk]
    rw [e1]
    refine submitAnswer_update_case _ qid pid t2 { old with answer_text := t1.trim }
      player question h2 hp hq ?_
    rw [filter_key_map_const qid pid { old with answer_text := t1.trim } hold, hk,
      List.map_cons, List.map_nil]

end QuizGame

namespace QuizGame

/-- Database with one player and one icebreaker question and no stored
answers, used to instantiate the upsert theorem. -/
def dbForUpsert : DB :=
  { game_sessions := [],
    players := [{ id := 2, game_id := 0, name := "B", is_projector := false,
                  score := 0, avatar_color := "x" }],
    questions := [{ id := 3, game_id := 0, question_number := 1, question_text := "q" }],
    answers := [], quiz_questions := [], quiz_answers := [], nextId := 20 }

/-- Concrete instance of the upsert theorem: submitting "tea" then "coffee"
leaves exactly one row for the pair, holding "coffee". -/
theorem answer_upsert_last_write_wins_witness :
    ((submitAnswer (submitAnswer dbForUpsert (some 3) (some 2) (some "tea")).1
        (some 3) (some 2) (some "coffee")).1.answers.filter
      (fun a => a.question_id == 3 && a.player_id == 2)).map
        (fun a => a.answer_text) = ["coffee".trim] :=
  answer_upsert_last_write_wins dbForUpsert 3 2 "tea" "coffee"
    { id := 2, game_id := 0, name := "B", is_projector := false, score := 0,
      avatar_color := "x" }
    { id := 3, game_id := 0, question_number := 1, question_text := "q" }
    (by decide) (by decide) rfl rfl (Or.inl rfl)

/-- C7: both generation endpoints are idempotent — when questions already
exist for the session, the call returns the existing (ordered) question set
and the database is completely unchanged: no new rows, no phase or pointer
update. -/
theorem generation_idempotent :
    (∀ db gc pid llm game host,
      gc ≠ "" →
      findGame db gc = some game →
      playerInGame db pid game.id = some host →
      host.is_projector = true →
      questionsForGame db game.id ≠ [] →
      generateQuestionsRoute db (some gc) pid llm =
        (db, .ok (questionsForGame db game.id))) ∧
    (∀ db gc pid llm now game host,
      gc ≠ "" →
      findGame db gc = some game →
      playerInGame db pid game.id = some host →
      host.is_projector = true →
      quizQuestionsForGame db game.id ≠ [] →
      quizGenerate db (some gc) pid llm now =
        (db, .ok (quizQuestionsForGame db game.id))) := by
  constructor
  · intro db gc pid llm game host hgc h2 h3 h4 h5
    have hgc2 : (!(strPresent (some gc))) = false := by simp [strPresent, hgc]
    simp only [generateQuestionsRoute, hgc2, Bool.false_eq_true, if_false,
      Option.getD_some, h2, h3, h4, Bool.not_true]
    rw [if_pos (List.length_pos.mpr h5)]
  · intro db gc pid llm now game host hgc h2 h3 h4 h5
    have hgc2 : (!(strPresent (some gc))) = false := by simp [strPresent, hgc]
    simp only [quizGenerate, hgc2, Bool.false_eq_true, if_false,
      Option.getD_some, h2, h3, h4, Bool.not_true]
    rw [if_pos (List.length_pos.mpr h5)]

/-- Concrete instance of the idempotence theorem at `dbForAdvance`: both
generators return the stored question lists and leave the database as is. -/
theorem generation_idempotent_witness :
    generateQuestionsRoute dbForAdvance (some "GG") (some 1) none =
      (dbForAdvance,
        .ok [{ id := 2, game_id := 0, question_number := 1, question_text := "q" }]) ∧
    quizGenerate dbForAdvance (some "GG") (some 1) (fun _ => none) 0 =
      (dbForAdvance,
        .ok [{ id := 5, game_id := 0, about_player_id := 3, question_text := "qq",
               correct_answer := "A", option_a := "a", option_b := "b", option_c := "c",
               option_d := "d", question_order := 1 }]) :=
  ⟨generation_idempotent.1 dbForAdvance "GG" (some 1) none sessionForAdvance
      { id := 1, game_id := 0, name := "H", is_projector := true, score := 0,
        avatar_color := "x" }
      (by decide) rfl rfl rfl (by decide),
   generation_idempotent.2 dbForAdvance "GG" (some 1) (fun _ => none) 0
      sessionForAdvance
      { id := 1, game_id := 0, name := "H", is_projector := true, score := 0,
        avatar_color := "x" }
      (by decide) rfl rfl rfl (by decide)⟩

end QuizGame

namespace QuizGame

lemma interleavePick_aux (pid : Nat) (all : List GenQuizQuestion) :
    ∀ (suf pre : List GenQuizQuestion), all = pre ++ suf → ∀ r : Nat,
    ((suf.enumFrom pre.length).find? (fun iq =>
      iq.2.aboutPlayerId == pid &&
        ((all.take iq.1).filter (fun pq => pq.aboutPlayerId == pid)).length == r)).map
      (fun iq => iq.2) =
      if (pre.filter (fun pq => pq.aboutPlayerId == pid)).length ≤ r then
        (suf.filter (fun pq => pq.aboutPlayerId == pid)).get?
          (r - (pre.filter (fun pq => pq.aboutPlayerId == pid)).length)
      else none := by
  intro suf
  induction suf with
  | nil =>
    intro pre h r
    rw [show (([] : List GenQuizQuestion).enumFrom pre.length) = [] from rfl,
      List.find?_nil]
    split <;> rfl
  | cons q qs ih =>
    intro pre h r
    have htake : all.take pre.length = pre := by
      rw [h]
      exact List.take_left pre (q :: qs)
    rw [show ((q :: qs).enumFrom pre.length) =
      (pre.length, q) :: qs.enumFrom (pre.length + 1) from rfl]
    have hstep := ih (pre ++ [q]) (by rw [h, List.append_assoc]; rfl) r
    have hlen : (pre ++ [q]).length = pre.length + 1 := by simp
    rw [hlen] at hstep
    cases hfq : (q.aboutPlayerId == pid) with
    | true =>
      cases hkr : ((pre.filter (fun pq => pq.aboutPlayerId == pid)).length == r) with
      | true =>
        have hkr2 : (pre.filter (fun pq => pq.aboutPlayerId == pid)).length = r := by
          simpa using hkr
        rw [List.find?_cons_of_pos _ (by dsimp only; rw [htake, hfq, hkr]; rfl)]
        rw [if_pos (le_of_eq hkr2)]
        rw [@List.filter_cons_of_pos GenQuizQuestion
          (fun pq => pq.aboutPlayerId == pid) q qs hfq]
        rw [hkr2, Nat.sub_self]
        rfl
      | false =>
        have hkr2 : (pre.filter (fun pq => pq.aboutPlayerId == pid)).length ≠ r := by
          simpa using hkr
        rw [List.find?_cons_of_neg _ (by dsimp only; rw [htake, hfq, hkr]; decide)]
        rw [hstep]
        have hk1 : ((pre ++ [q]).filter (fun pq => pq.aboutPlayerId == pid)).length =
            (pre.filter (fun pq => pq.aboutPlayerId == pid)).length + 1 := by
          rw [List.filter_append]
          rw [show ([q].filter (fun pq => pq.aboutPlayerId == pid)) = [q] from by
            simp [hfq]]
          simp
        rw [hk1]
        rw [@List.filter_cons_of_pos GenQuizQuestion
          (fun pq => pq.aboutPlayerId == pid) q qs hfq]
        by_cases hle : (pre.filter (fun pq => pq.aboutPlayerId == pid)).length + 1 ≤ r
        · rw [if_pos hle, if_pos (by omega)]
          have hidx : r - (pre.filter (fun pq => pq.aboutPlayerId == pid)).length =
              (r - ((pre.filter (fun pq => pq.aboutPlayerId == pid)).length + 1)) + 1 := by
            omega
          rw [hidx, List.get?_cons_succ]
        · rw [if_neg hle, if_neg (by omega)]
    | false =>
      rw [List.find?_cons_of_neg _ (by dsimp only; rw [htake, hfq]; simp)]
      rw [hstep]
      have hk1 : ((pre ++ [q]).filter (fun pq => pq.aboutPlayerId == pid)).length =
          (pre.filter (fun pq => pq.aboutPlayerId == pid)).length := by
        rw [List.filter_append]
        rw [show ([q].filter (fun pq => pq.aboutPlayerId == pid)) = [] from by
          simp [hfq]]
        simp
      rw [hk1]
      rw [@List.filter_cons_of_neg GenQuizQuestion
        (fun pq => pq.aboutPlayerId == pid) q qs (by simp [hfq])]

lemma interleavePick_eq_get (all : List GenQuizQuestion) (pid r : Nat) :
    interleavePick all pid r =
      (all.filter (fun pq => pq.aboutPlayerId == pid)).get? r := by
  have hstep := interleavePick_aux pid all all [] rfl r
  simpa [interleavePick] using hstep

end QuizGame

namespace QuizGame

lemma mem_generateQuestionsForPlayer_about
    (llm : PlayerIcebreakerData → Option (List RawQuizQuestion))
    (x : PlayerIcebreakerData) (allP : List PlayerIcebreakerData) :
    ∀ q ∈ generateQuestionsForPlayer llm x allP, q.aboutPlayerId = x.playerId := by
  have hfb : ∀ q ∈ fallbackQuestionsForPlayer x allP, q.aboutPlayerId = x.playerId := by
    intro q hq
    simp only [fallbackQuestionsForPlayer] at hq
    rw [List.mem_map] at hq
    obtain ⟨a, -, rfl⟩ := hq
    rfl
  intro q hq
  unfold generateQuestionsForPlayer at hq
  split at hq
  · split at hq
    · rw [List.mem_map] at hq
      obtain ⟨raw, -, rfl⟩ := hq
      rfl
    · exact hfb q hq
  · exact hfb q hq

lemma flatten_filter_about (llm : PlayerIcebreakerData → Option (List RawQuizQuestion))
    (pdFull : List PlayerIcebreakerData) :
    ∀ (l : List PlayerIcebreakerData), (l.map (fun x => x.playerId)).Nodup →
      ∀ p ∈ l,
      ((l.map (fun x => generateQuestionsForPlayer llm x pdFull)).flatten.filter
        (fun q => q.aboutPlayerId == p.playerId)) =
        generateQuestionsForPlayer llm p pdFull := by
  intro l
  induction l with
  | nil =>
    intro _ p hp
    cases hp
  | cons y ys ih =>
    intro hnd p hp
    rw [List.map_cons, List.nodup_cons] at hnd
    rw [List.map_cons,
      show ((generateQuestionsForPlayer llm y pdFull) ::
        ys.map (fun x => generateQuestionsForPlayer llm x pdFull)).flatten =
        generateQuestionsForPlayer llm y pdFull ++
          (ys.map (fun x => generateQuestionsForPlayer llm x pdFull)).flatten from rfl,
      List.filter_append]
    rcases List.mem_cons.mp hp with rfl | hp2
    · have h1 : (generateQuestionsForPlayer llm p pdFull).filter
          (fun q => q.aboutPlayerId == p.playerId) =
          generateQuestionsForPlayer llm p pdFull :=
        List.filter_eq_self.mpr (fun q hq => by
          simp [mem_generateQuestionsForPlayer_about llm p pdFull q hq])
      have h2 : ((ys.map (fun x => generateQuestionsForPlayer llm x pdFull)).flatten.filter
          (fun q => q.aboutPlayerId == p.playerId)) = [] := by
        rw [List.filter_eq_nil_iff]
        intro q hq
        rw [List.mem_flatten] at hq
        obtain ⟨s, hs, hqs⟩ := hq
        rw [List.mem_map] at hs
        obtain ⟨z, hz, rfl⟩ := hs
        have hzq := mem_generateQuestionsForPlayer_about llm z pdFull q hqs
        have hne : z.playerId ≠ p.playerId := by
          intro he
          exact hnd.1 (he ▸ List.mem_map_of_mem (fun x => x.playerId) hz)
        simp [hzq, hne]
      rw [h1, h2, List.append_nil]
    · have h1 : (generateQuestionsForPlayer llm y pdFull).filter
          (fun q => q.aboutPlayerId == p.playerId) = [] := by
        rw [List.filter_eq_nil_iff]
        intro q hq
        have hyq := mem_generateQuestionsForPlayer_about llm y pdFull q hq
        have hne : y.playerId ≠ p.playerId := fun he =>
          hnd.1 (he ▸ List.mem_map_of_mem (fun x => x.playerId) hp2)
        simp [hyq, hne]
      rw [h1, ih hnd.2 p hp2, List.nil_append]

/-- Round-robin merge per the specification wording: round 0 of every
player, then round 1 of every player. -/
def roundRobinSpec (blocks : List (List GenQuizQuestion)) : List GenQuizQuestion :=
  ((List.range QUESTIONS_PER_PLAYER).map (fun round =>
    blocks.filterMap (fun b => b.get? round))).flatten

lemma generateQuestionsForPlayer_length
    (llm : PlayerIcebreakerData → Option (List RawQuizQuestion))
    (x : PlayerIcebreakerData) (allP : List PlayerIcebreakerData) :
    (generateQuestionsForPlayer llm x allP).length =
      match llm x with
      | some qs =>
        if qs.length > 0 then min QUESTIONS_PER_PLAYER qs.length
        else min QUESTIONS_PER_PLAYER x.answers.length
      | none => min QUESTIONS_PER_PLAYER x.answers.length := by
  unfold generateQuestionsForPlayer fallbackQuestionsForPlayer
  cases hl : llm x with
  | none => simp [List.length_take]
  | some qs =>
    by_cases hq : qs.length > 0
    · simp [hq, List.length_take]
    · simp [hq, List.length_take]

lemma insert_rows_numbering (gid nid : Nat) (qs : List GenQuizQuestion) :
    ((qs.enum.map (fun iq =>
      ({ id := nid + iq.1, game_id := gid, about_player_id := iq.2.aboutPlayerId,
         question_text := iq.2.questionText, correct_answer := iq.2.correctAnswer,
         option_a := iq.2.optionA, option_b := iq.2.optionB, option_c := iq.2.optionC,
         option_d := iq.2.optionD, question_order := iq.1 + 1 } : QuizQuestion))).map
      (fun r => r.question_order)) = (List.range qs.length).map (fun i => i + 1) := by
  rw [List.map_map]
  rw [show ((fun r : QuizQuestion => r.question_order) ∘ (fun iq : Nat × GenQuizQuestion =>
    ({ id := nid + iq.1, game_id := gid, about_player_id := iq.2.aboutPlayerId,
       question_text := iq.2.questionText, correct_answer := iq.2.correctAnswer,
       option_a := iq.2.optionA, option_b := iq.2.optionB, option_c := iq.2.optionC,
       option_d := iq.2.optionD, question_order := iq.1 + 1 } : QuizQuestion))) =
    ((fun i => i + 1) ∘ (Prod.fst : Nat × GenQuizQuestion → Nat)) from rfl]
  rw [← List.map_map, List.enum_map_fst]

end QuizGame

namespace QuizGame

/-- Icebreaker data of a single participating player who gave exactly one
answer. -/
def singleAnswerPlayer : PlayerIcebreakerData :=
  { playerId := 1, playerName := "Ann", answers := [{ question := "q", answer := "pizza" }] }

/-- C8 counterexample: when the text-generation call fails and the
participating player has only one icebreaker answer, the fallback yields one
question for that player, not two — so quiz generation does not produce
exactly 2 questions per participating player. -/
theorem quiz_generation_two_per_player_counterexample :
    ((generateQuizQuestions (fun _ => none) [singleAnswerPlayer]).filter
      (fun q => q.aboutPlayerId == 1)).length = 1 ∧
    ¬(((generateQuizQuestions (fun _ => none) [singleAnswerPlayer]).filter
      (fun q => q.aboutPlayerId == 1)).length = 2) := by
  constructor
  · decide
  · decide

/-- C8 amended: quiz generation produces at most 2 questions per
participating player — exactly min(2, n) questions where n is the number the
generation collaborator returned (fallback: the number of that player's
icebreaker answers); when the per-player ids are distinct, the concatenated
list is ordered round-robin across players (round 0 of every player, then
round 1); and the rows persisted by the route carry sequential
question_order values 1, 2, ... -/
theorem quiz_generation_structure :
    (∀ llm (pd : List PlayerIcebreakerData),
      (pd.map (fun p => p.playerId)).Nodup →
      generateQuizQuestions llm pd =
        roundRobinSpec (pd.map (fun p => generateQuestionsForPlayer llm p pd))) ∧
    (∀ llm (x : PlayerIcebreakerData) (allP : List PlayerIcebreakerData),
      (generateQuestionsForPlayer llm x allP).length ≤ QUESTIONS_PER_PLAYER ∧
      (generateQuestionsForPlayer llm x allP).length =
        (match llm x with
          | some qs =>
            if qs.length > 0 then min QUESTIONS_PER_PLAYER qs.length
            else min QUESTIONS_PER_PLAYER x.answers.length
          | none => min QUESTIONS_PER_PLAYER x.answers.length)) ∧
    (∀ gid nid (qs : List GenQuizQuestion),
      ((qs.enum.map (fun iq =>
        ({ id := nid + iq.1, game_id := gid, about_player_id := iq.2.aboutPlayerId,
           question_text := iq.2.questionText, correct_answer := iq.2.correctAnswer,
           option_a := iq.2.optionA, option_b := iq.2.optionB, option_c := iq.2.optionC,
           option_d := iq.2.optionD, question_order := iq.1 + 1 } : QuizQuestion))).map
        (fun r => r.question_order)) = (List.range qs.length).map (fun i => i + 1)) := by
  refine ⟨?_, ?_, insert_rows_numbering⟩
  · intro llm pd hnd
    unfold generateQuizQuestions roundRobinSpec
    dsimp only
    congr 1
    apply List.map_congr_left
    intro round _
    rw [List.filterMap_map]
    apply List.filterMap_congr
    intro p hp
    rw [interleavePick_eq_get]
    rw [flatten_filter_about llm pd pd hnd p hp]
    rfl
  · intro llm x allP
    refine ⟨?_, generateQuestionsForPlayer_length llm x allP⟩
    rw [generateQuestionsForPlayer_length llm x allP]
    cases llm x with
    | none => exact min_le_left _ _
    | some qs =>
      dsimp only
      split
      · exact min_le_left _ _
      · exact min_le_left _ _

/-- Two participating players with distinct ids, used to instantiate the
round-robin theorem. -/
def twoPlayersData : List PlayerIcebreakerData :=
  [{ playerId := 1, playerName := "Ann",
     answers := [{ question := "q", answer := "pizza" },
                 { question := "q2", answer := "cats" }] },
   { playerId := 2, playerName := "Bob",
     answers := [{ question := "q", answer := "dogs" }] }]

/-- Concrete instance of the amended C8 theorem: with distinct player ids,
the generated list is the round-robin merge of the per-player blocks. -/
theorem quiz_generation_structure_witness :
    generateQuizQuestions (fun _ => none) twoPlayersData =
      roundRobinSpec (twoPlayersData.map (fun p =>
        generateQuestionsForPlayer (fun _ => none) p twoPlayersData)) :=
  quiz_generation_structure.1 (fun _ => none) twoPlayersData (by decide)

end QuizGame

namespace QuizGame

/-- Database with two sessions: the quiz question and icebreaker question
belong to game 0 while player 2 is registered to game 1. -/
def dbCrossSession : DB :=
  { game_sessions :=
      [{ id := 0, code := "AA", status := .playing, phase := .quiz_question,
         current_question_id := none, current_question_number := some 0,
         current_quiz_question_id := some 10, current_quiz_question_number := some 1,
         quiz_started_at := some 0, question_deadline := some 20000 },
       { id := 1, code := "BB", status := .waiting, phase := .lobby,
         current_question_id := none, current_question_number := some 0,
         current_quiz_question_id := none, current_quiz_question_number := some 0,
         quiz_started_at := none, question_deadline := none }],
    players := [{ id := 2, game_id := 1, name := "Bob", is_projector := false,
                  score := 0, avatar_color := "x" }],
    questions := [{ id := 11, game_id := 0, question_number := 1, question_text := "q" }],
    answers := [],
    quiz_questions := [{ id := 10, game_id := 0, about_player_id := 3,
                         question_text := "qq", correct_answer := "A", option_a := "a",
                         option_b := "b", option_c := "c", option_d := "d",
                         question_order := 1 }],
    quiz_answers := [], nextId := 50 }

/-- C9 counterexample: the answer-submission handlers do not scope the
player lookup to the question's session — player 2 belongs to game 1, both
questions belong to game 0, yet both submissions succeed instead of failing
with not-found. -/
theorem cross_session_answer_counterexample :
    playerById dbCrossSession (some 2) =
      some { id := 2, game_id := 1, name := "Bob", is_projector := false,
             score := 0, avatar_color := "x" } ∧
    quizQuestionById dbCrossSession (some 10) =
      some { id := 10, game_id := 0, about_player_id := 3, question_text := "qq",
             correct_answer := "A", option_a := "a", option_b := "b", option_c := "c",
             option_d := "d", question_order := 1 } ∧
    (quizSubmitAnswer dbCrossSession (some 10) (some 2) (some "A")).2 =
      .ok { id := 50, quiz_question_id := 10, player_id := 2, selected_option := "A",
            is_correct := true } true "A" ∧
    (submitAnswer dbCrossSession (some 11) (some 2) (some "hi")).2 =
      .ok { id := 50, question_id := 11, player_id := 2, answer_text := "hi".trim } :=
  ⟨rfl, rfl, rfl, rfl⟩

/-- C9 amended: the host-identifying operations (start, both advance
handlers, both generators) look the caller up scoped to the session and fail
with not-found when the id is not registered there; but the two
answer-submission handlers look the player up globally by id only, so a
player registered to a different session than the question's is accepted,
not rejected. -/
theorem player_lookup_scoping :
    (∀ db gc pid game, gc ≠ "" → findGame db gc = some game →
      db.players.filter (fun p => p.id == pid && p.game_id == game.id) = [] →
      startGame db (some gc) (some pid) = (db, .err 404 "Player not found in game") ∧
      (∀ act, icebreakerNext db (some gc) (some pid) act =
        (db, .err 404 "Player not found in game")) ∧
      (∀ act now, quizNext db (some gc) (some pid) act now =
        (db, .err 404 "Player not found in game")) ∧
      (∀ llm, generateQuestionsRoute db (some gc) (some pid) llm =
        (db, .err 404 "Player not found in game")) ∧
      (∀ llm now, quizGenerate db (some gc) (some pid) llm now =
        (db, .err 404 "Player not found in game"))) ∧
    (∀ db qqid pid sel player question, sel ∈ VALID_OPTIONS →
      playerById db (some pid) = some player →
      quizQuestionById db (some qqid) = some question →
      player.game_id ≠ question.game_id →
      db.quiz_answers.filter (fun a =>
        a.quiz_question_id == qqid && a.player_id == pid) = [] →
      quizSubmitAnswer db (some qqid) (some pid) (some sel) =
        ({ db with
           quiz_answers := db.quiz_answers ++
             [{ id := db.nextId, quiz_question_id := qqid, player_id := pid,
                selected_option := sel, is_correct := (sel == question.correct_answer) }],
           nextId := db.nextId + 1 },
         .ok { id := db.nextId, quiz_question_id := qqid, player_id := pid,
               selected_option := sel, is_correct := (sel == question.correct_answer) }
           (sel == question.correct_answer) question.correct_answer)) ∧
    (∀ db qid pid t player question, t ≠ "" →
      playerById db (some pid) = some player →
      questionById db (some qid) = some question →
      player.game_id ≠ question.game_id →
      (db.answers.filter (fun a => a.question_id == qid && a.player_id == pid) = []
        ∨ ∃ old, db.answers.filter (fun a =>
            a.question_id == qid && a.player_id == pid) = [old]) →
      ∃ a, (submitAnswer db (some qid) (some pid) (some t)).2 = .ok a) := by
  refine ⟨?_, ?_, ?_⟩
  · intro db gc pid game hgc h2 hfil
    have hlook : playerInGame db (some pid) game.id = none := by
      show single? (db.players.filter (fun p => p.id == pid && p.game_id == game.id)) =
        none
      rw [hfil]
      rfl
    have hcond : (!(strPresent (some gc))) = false := by simp [strPresent, hgc]
    have hcond2 : (!(strPresent (some gc)) || (some pid : Option Nat).isNone) = false := by
      simp [strPresent, hgc]
    refine ⟨?_, ?_, ?_, ?_, ?_⟩
    · simp only [startGame, hcond, Bool.false_eq_true, if_false, Option.getD_some,
        h2, hlook]
    · intro act
      simp only [icebreakerNext, hcond2, Bool.false_eq_true, if_false, Option.getD_some,
        h2, hlook]
    · intro act now
      simp only [quizNext, hcond2, Bool.false_eq_true, if_false, Option.getD_some,
        h2, hlook]
    · intro llm
      simp only [generateQuestionsRoute, hcond, Bool.false_eq_true, if_false,
        Option.getD_some, h2, hlook]
    · intro llm now
      simp only [quizGenerate, hcond, Bool.false_eq_true, if_false, Option.getD_some,
        h2, hlook]
  · intro db qqid pid sel player question hsel hp hq _hcross hf
    have hc : VALID_OPTIONS.contains sel = true := by fin_cases hsel <;> decide
    have hsne : (sel == "") = false := by fin_cases hsel <;> decide
    simp only [quizSubmitAnswer, Option.isNone_some, strPresent, hsne, Bool.not_false,
      Bool.not_true, Bool.or_false, Bool.false_or, Bool.or_self, Bool.false_eq_true,
      if_false, Option.getD_some, hc, hp, hq, hf]
  · intro db qid pid t player question ht hp hq _hcross hkey
    have ht2 : (t == "") = false := by simp [ht]
    rcases hkey with hk | ⟨old, hk⟩
    · refine ⟨{ id := db.nextId, question_id := qid, player_id := pid,
                answer_text := t.trim }, ?_⟩
      simp only [submitAnswer, Option.isNone_some, strPresent, ht2, Bool.not_false,
        Bool.not_true, Bool.or_false, Bool.false_or, Bool.false_eq_true, if_false,
        hp, hq, Option.getD_some, hk]
    · refine ⟨{ old with answer_text := t.trim }, ?_⟩
      simp only [submitAnswer, Option.isNone_some, strPresent, ht2, Bool.not_false,
        Bool.not_true, Bool.or_false, Bool.false_or, Bool.false_eq_true, if_false,
        hp, hq, Option.getD_some, hk]

/-- Concrete instance of the cross-session acceptance part of the amended
theorem at `dbCrossSession`. -/
theorem player_lookup_scoping_witness :
    quizSubmitAnswer dbCrossSession (some 10) (some 2) (some "A") =
      ({ dbCrossSession with
         quiz_answers := dbCrossSession.quiz_answers ++
           [{ id := dbCrossSession.nextId, quiz_question_id := 10, player_id := 2,
              selected_option := "A",
              is_correct := ("A" ==
                ({ id := 10, game_id := 0, about_player_id := 3, question_text := "qq",
                   correct_answer := "A", option_a := "a", option_b := "b",
                   option_c := "c", option_d := "d",
                   question_order := 1 } : QuizQuestion).correct_answer) }],
         nextId := dbCrossSession.nextId + 1 },
       .ok { id := dbCrossSession.nextId, quiz_question_id := 10, player_id := 2,
             selected_option := "A",
             is_correct := ("A" ==
               ({ id := 10, game_id := 0, about_player_id := 3, question_text := "qq",
                  correct_answer := "A", option_a := "a", option_b := "b",
                  option_c := "c", option_d := "d",
                  question_order := 1 } : QuizQuestion).correct_answer) }
         ("A" ==
           ({ id := 10, game_id := 0, about_player_id := 3, question_text := "qq",
              correct_answer := "A", option_a := "a", option_b := "b", option_c := "c",
              option_d := "d", question_order := 1 } : QuizQuestion).correct_answer)
         ({ id := 10, game_id := 0, about_player_id := 3, question_text := "qq",
            correct_answer := "A", option_a := "a", option_b := "b", option_c := "c",
            option_d := "d", question_order := 1 } : QuizQuestion).correct_answer) :=
  player_lookup_scoping.2.1 dbCrossSession 10 2 "A"
    { id := 2, game_id := 1, name := "Bob", is_projector := false, score := 0,
      avatar_color := "x" }
    { id := 10, game_id := 0, about_player_id := 3, question_text := "qq",
      correct_answer := "A", option_a := "a", option_b := "b", option_c := "c",
      option_d := "d", question_order := 1 }
    (by decide) rfl rfl (by decide) rfl

end QuizGame

namespace QuizGame

/-- Rejection conditions of the quiz answer handler, expressed through the
engine's own checks: missing field, invalid label, failing player or
question lookup, or an existing row for the (question, player) pair. -/
def quizAnswerRejectConditions (db : DB) (quizQuestionId playerId : Option Nat)
    (selectedOption : Option String) : Prop :=
  quizQuestionId.isNone = true ∨ playerId.isNone = true ∨
  strPresent selectedOption = false ∨
  VALID_OPTIONS.contains (selectedOption.getD "") = false ∨
  playerById db playerId = none ∨ quizQuestionById db quizQuestionId = none ∨
  db.quiz_answers.filter (fun a =>
    a.quiz_question_id == quizQuestionId.getD 0 &&
      a.player_id == playerId.getD 0) ≠ []

/-- C10: the quiz answer handler never consults the session table, so phase
and deadline cannot influence it — replacing game_sessions changes neither
the response nor any other table — and every submission is either covered
by one of the rejection conditions (missing field, label outside A-D,
failing player/question lookup, or an existing row for the pair) or
succeeds, persisting the row with correctness computed from the stored
correct label.  In particular a first submission is accepted after the
deadline has passed or after show_results moved the phase to quiz_results. -/
theorem quiz_answer_ignores_session_state :
    (∀ db sess qqid pid sel,
      quizSubmitAnswer { db with game_sessions := sess } qqid pid sel =
        ({ (quizSubmitAnswer db qqid pid sel).1 with game_sessions := sess },
         (quizSubmitAnswer db qqid pid sel).2)) ∧
    (∀ db qqid pid sel,
      quizAnswerRejectConditions db qqid pid sel ∨
      ∃ question,
        quizQuestionById db qqid = some question ∧
        quizSubmitAnswer db qqid pid sel =
          ({ db with
             quiz_answers := db.quiz_answers ++
               [{ id := db.nextId, quiz_question_id := qqid.getD 0,
                  player_id := pid.getD 0, selected_option := sel.getD "",
                  is_correct := (sel.getD "" == question.correct_answer) }],
             nextId := db.nextId + 1 },
           .ok { id := db.nextId, quiz_question_id := qqid.getD 0,
                 player_id := pid.getD 0, selected_option := sel.getD "",
                 is_correct := (sel.getD "" == question.correct_answer) }
             (sel.getD "" == question.correct_answer) question.correct_answer)) := by
  constructor
  · intro db sess qqid pid sel
    have hP : playerById { db with game_sessions := sess } = playerById db := rfl
    have hQ : quizQuestionById { db with game_sessions := sess } =
      quizQuestionById db := rfl
    unfold quizSubmitAnswer
    dsimp only
    rw [hP, hQ]
    cases hc1 : (qqid.isNone || pid.isNone || !(strPresent sel)) with
    | true => rfl
    | false =>
      cases hc2 : (!(VALID_OPTIONS.contains (sel.getD ""))) with
      | true => rfl
      | false =>
        cases hp : playerById db pid with
        | none => rfl
        | some player =>
          cases hq : quizQuestionById db qqid with
          | none => rfl
          | some question =>
            cases hf : db.quiz_answers.filter (fun a =>
                a.quiz_question_id == qqid.getD 0 && a.player_id == pid.getD 0) with
            | nil => rfl
            | cons a t => cases t <;> rfl
  · intro db qqid pid sel
    by_cases c1 : (qqid.isNone || pid.isNone || !(strPresent sel)) = true
    · left
      unfold quizAnswerRejectConditions
      have c1b : (qqid = none ∨ pid = none) ∨ strPresent sel = false := by
        simpa using c1
      rcases c1b with (h | h) | h
      · exact Or.inl (by simp [h])
      · exact Or.inr (Or.inl (by simp [h]))
      · exact Or.inr (Or.inr (Or.inl h))
    · by_cases c2 : (!(VALID_OPTIONS.contains (sel.getD ""))) = true
      · left
        exact Or.inr (Or.inr (Or.inr (Or.inl (by simpa using c2))))
      · cases hp : playerById db pid with
        | none => exact Or.inl (Or.inr (Or.inr (Or.inr (Or.inr (Or.inl hp)))))
        | some player =>
          cases hq : quizQuestionById db qqid with
          | none =>
            exact Or.inl (Or.inr (Or.inr (Or.inr (Or.inr (Or.inr (Or.inl hq))))))
          | some question =>
            cases hf : db.quiz_answers.filter (fun a =>
                a.quiz_question_id == qqid.getD 0 && a.player_id == pid.getD 0) with
            | cons a t =>
              left
              refine Or.inr (Or.inr (Or.inr (Or.inr (Or.inr (Or.inr ?_)))))
              rw [hf]
              simp
            | nil =>
              right
              refine ⟨question, rfl, ?_⟩
              have hc1 : (qqid.isNone || pid.isNone || !(strPresent sel)) = false :=
                Bool.eq_false_iff.mpr c1
              have hc2 : (!(VALID_OPTIONS.contains (sel.getD ""))) = false :=
                Bool.eq_false_iff.mpr c2
              simp only [quizSubmitAnswer, hc1, hc2, Bool.false_eq_true, if_false,
                hp, hq, hf]

/-- Session already in quiz_results with an expired deadline: the quiz
answer handler still accepts a first submission. -/
def dbLateSession : DB :=
  { game_sessions :=
      [{ id := 0, code := "AA", status := .playing, phase := .quiz_results,
         current_question_id := none, current_question_number := some 0,
         current_quiz_question_id := some 10, current_quiz_question_number := some 1,
         quiz_started_at := some 0, question_deadline := some 5 }],
    players := [{ id := 2, game_id := 0, name := "Bob", is_projector := false,
                  score := 0, avatar_color := "x" }],
    questions := [], answers := [],
    quiz_questions := [{ id := 10, game_id := 0, about_player_id := 2,
                         question_text := "qq", correct_answer := "A", option_a := "a",
                         option_b := "b", option_c := "c", option_d := "d",
                         question_order := 1 }],
    quiz_answers := [], nextId := 60 }

/-- Concrete instance of the C10 theorem at a quiz_results session with an
expired deadline. -/
theorem quiz_answer_ignores_session_state_witness :
    quizAnswerRejectConditions dbLateSession (some 10) (some 2) (some "B") ∨
    ∃ question,
      quizQuestionById dbLateSession (some 10) = some question ∧
      quizSubmitAnswer dbLateSession (some 10) (some 2) (some "B") =
        ({ dbLateSession with
           quiz_answers := dbLateSession.quiz_answers ++
             [{ id := dbLateSession.nextId, quiz_question_id := 10, player_id := 2,
                selected_option := "B",
                is_correct := ("B" == question.correct_answer) }],
           nextId := dbLateSession.nextId + 1 },
         .ok { id := dbLateSession.nextId, quiz_question_id := 10, player_id := 2,
               selected_option := "B",
               is_correct := ("B" == question.correct_answer) }
           ("B" == question.correct_answer) question.correct_answer) :=
  quiz_answer_ignores_session_state.2 dbLateSession (some 10) (some 2) (some "B")

end QuizGame
